import Mathlib

/-!
Shallow embedding of the aeroacoustic UAV propeller evaluation engine
(noise model, thrust model, metrics engine, bio-inspired feature models,
feature composer, evaluator, optimizer trial body) and proofs of the
specification claims about it.

Modelling conventions:
- Python floats are modelled as real numbers; float ** is Real.rpow for
  fractional exponents and monoid powers for integer ones.
- The float value inf returned by the metrics engine is modelled as the
  top element of EReal.
- Python dict-based records are modelled as structures; a field read via
  dict.get(key, default) is an Option field forced with getD at the use
  site, mirroring each call site's default.
- A Python function that can raise (ZeroDivisionError on a float division
  with zero denominator, KeyError on a missing parameter dict) is
  modelled as Option-valued, returning none exactly on the raising
  inputs; total functions stay total.
- int(x) on a float truncates toward zero, modelled by pyInt below.
-/

noncomputable section

/-- Truncation toward zero, the semantics of Python int() applied to a float. -/
def pyInt (x : ℝ) : ℤ := if 0 ≤ x then ⌊x⌋ else ⌈x⌉

/-- Reference pressure of the noise analyzer (20 micropascal), the default
constructor argument, used by every call in the pipeline. -/
def reference_pressure : ℝ := 2e-5

/-- Air density default of ThrustCalculator, used by every call in the pipeline. -/
def default_air_density : ℝ := 1.225

/-- NoiseAnalyzer.calculate_spl: 0 dB sentinel for non-positive pressure,
otherwise 20 log10 of the distance-adjusted pressure over the reference pressure. -/
def calculate_spl (pressure distance : ℝ) : ℝ :=
  if pressure ≤ 0 then 0
  else 20 * Real.logb 10 ((pressure / distance) / reference_pressure)

/-- NoiseAnalyzer.calculate_broadband_noise. -/
def calculate_broadband_noise (velocity chord_length blade_thickness angle_of_attack distance : ℝ) : ℝ :=
  let velocity_term := velocity ^ (5.5 : ℝ)
  let area_term := chord_length * blade_thickness
  let aoa_factor := 1.0 + 0.5 * |angle_of_attack| / 15.0
  let pressure_rms := 1e-3 * velocity_term * area_term * aoa_factor / distance ^ (2 : ℕ)
  calculate_spl pressure_rms distance

/-- Harmonic pressure amplitude of NoiseAnalyzer.calculate_tonal_noise for harmonic h. -/
def tonal_pressure_rms (tip_speed : ℝ) (num_blades : ℕ) (h : ℕ) (distance : ℝ) : ℝ :=
  5e-3 * tip_speed ^ (4 : ℕ) * ((num_blades : ℝ) / 2.0) / ((h : ℝ) ^ (1.5 : ℝ) * distance ^ (2 : ℕ))

/-- SPL of one tonal harmonic in NoiseAnalyzer.calculate_tonal_noise. -/
def tonal_harmonic_spl (tip_speed : ℝ) (num_blades : ℕ) (h : ℕ) (distance : ℝ) : ℝ :=
  calculate_spl (tonal_pressure_rms tip_speed num_blades h distance) distance

/-- Harmonic frequency in NoiseAnalyzer.calculate_tonal_noise: the blade passage
frequency (rpm/60)*num_blades times the harmonic order. -/
def tonal_harmonic_freq (rpm : ℝ) (num_blades : ℕ) (h : ℕ) : ℝ :=
  (rpm / 60.0) * (num_blades : ℝ) * (h : ℕ)

/-- NoiseAnalyzer.calculate_tonal_noise: the per-harmonic (SPL, frequency) pairs
for harmonic orders 1..harmonics, in order. -/
def calculate_tonal_noise (rpm tip_speed : ℝ) (num_blades : ℕ) (distance : ℝ) (harmonics : ℕ) : List (ℝ × ℝ) :=
  (List.range harmonics).map fun i =>
    (tonal_harmonic_spl tip_speed num_blades (i + 1) distance,
     tonal_harmonic_freq rpm num_blades (i + 1))

/-- NoiseAnalyzer.calculate_vortex_noise, frequency part: Strouhal relation. -/
def calculate_vortex_noise_freq (velocity diameter strouhal_number : ℝ) : ℝ :=
  strouhal_number * velocity / diameter

/-- NoiseAnalyzer.calculate_vortex_noise, SPL part. -/
def calculate_vortex_noise_spl (velocity diameter distance : ℝ) : ℝ :=
  calculate_spl (8e-4 * velocity ^ (3 : ℕ) * diameter / distance ^ (2 : ℕ)) distance

/-- Pressure-domain combination step of NoiseAnalyzer.calculate_total_noise
(source lines 197-203): each component SPL is converted to pressure, the
pressures are combined as the square root of the sum of squares, and the
result converted back to dB. -/
def combine_spl_components (broadband_spl tonal_spl_primary vortex_spl : ℝ) : ℝ :=
  let p_broadband := reference_pressure * (10 : ℝ) ^ (broadband_spl / 20.0)
  let p_tonal := reference_pressure * (10 : ℝ) ^ (tonal_spl_primary / 20.0)
  let p_vortex := reference_pressure * (10 : ℝ) ^ (vortex_spl / 20.0)
  let p_total := Real.sqrt (p_broadband ^ (2 : ℕ) + p_tonal ^ (2 : ℕ) + p_vortex ^ (2 : ℕ))
  20 * Real.logb 10 (p_total / reference_pressure)

/-- Geometry parameters of the owl serration feature (dict returned by
calculate_serration_geometry). -/
structure SerrationParams where
  depth_m : ℝ
  wavelength_m : ℝ
  num_serrations : ℤ
  angle_deg : ℝ
  depth_ratio : ℝ
  wavelength_ratio : ℝ

/-- Geometry parameters of the humpback tubercle feature. -/
structure TubercleParams where
  num_tubercles : ℤ
  wavelength_m : ℝ
  amplitude_ratio : ℝ
  wavelength_ratio : ℝ
  span_m : ℝ

/-- Geometry parameters of the dragonfly corrugation feature. -/
structure CorrugationParams where
  depth_m : ℝ
  wavelength_m : ℝ
  num_corrugations : ℤ
  profile_angle_deg : ℝ
  depth_ratio : ℝ
  wavelength_ratio : ℝ

/-- Structural benefit record of DragonflyCorrugations.estimate_structural_benefits. -/
structure StructuralBenefits where
  stiffness_increase_percentage : ℝ
  torsional_stiffness_increase_percentage : ℝ
  natural_frequency_increase_percentage : ℝ
  moment_area_factor : ℝ
  flutter_resistance_improvement : String

/-- Per-feature noise-reduction contributions and synergy data returned by
BioInspiredDesignFactory.estimate_combined_noise_reduction. -/
structure CompositionResult where
  total_reduction_db : ℝ
  final_noise_db : ℝ
  individual_reductions : List (String × ℝ)
  interaction_factor : ℝ
  reduction_percentage : ℝ

/-- Blade geometry record: the dict passed between pipeline stages. Every
field read in the source goes through dict.get with a default, so every
field is optional; none models an absent key. (material_properties is
omitted: the only function receiving it never reads it.) -/
structure Geometry where
  chord_length : Option ℝ := none
  blade_thickness : Option ℝ := none
  num_blades : Option ℕ := none
  radius : Option ℝ := none
  angle_of_attack : Option ℝ := none
  radius_m : Option ℝ := none
  chord_root : Option ℝ := none
  chord_tip : Option ℝ := none
  pitch_angle : Option ℝ := none
  cl_slope : Option ℝ := none
  drag_coefficient : Option ℝ := none
  cl_max : Option ℝ := none
  stall_angle_deg : Option ℝ := none
  trailing_edge_serrations : Option SerrationParams := none
  leading_edge_tubercles : Option TubercleParams := none
  surface_corrugations : Option CorrugationParams := none
  structural_improvements : Option StructuralBenefits := none
  bio_inspired_feature : Option String := none
  bio_inspired_features : Option (List String) := none

instance : Inhabited Geometry := ⟨{}⟩

/-- Operating-conditions record; fields are read with per-call-site defaults. -/
structure Conditions where
  rpm : Option ℝ := none
  velocity : Option ℝ := none
  angle_of_attack : Option ℝ := none
  reynolds_number : Option ℝ := none
  frequency_hz : Option ℝ := none

/-- Result dict of NoiseAnalyzer.calculate_total_noise, including the keys
added later by DesignEvaluator.evaluate_bio_inspired_design. -/
structure NoiseResults where
  total_spl_db : ℝ
  broadband_spl_db : ℝ
  tonal_spl_db : ℝ
  vortex_spl_db : ℝ
  vortex_frequency_hz : ℝ
  harmonics : List (ℝ × ℝ)
  noise_reduction_db : Option ℝ := none
  bio_inspired_reduction : Option CompositionResult := none

/-- NoiseAnalyzer.calculate_total_noise: extracts parameters with their
documented defaults, computes the three component SPLs and combines them in
the pressure domain. The tonal primary SPL is the first-harmonic entry of
the tonal results (harmonics = 3, so the key BPF_harmonic_1 is present). -/
def calculate_total_noise (propeller_params : Geometry) (operating_conditions : Conditions)
    (distance : ℝ) : NoiseResults :=
  let rpm := operating_conditions.rpm.getD 5000
  let velocity := operating_conditions.velocity.getD 10.0
  let chord := propeller_params.chord_length.getD 0.05
  let thickness := propeller_params.blade_thickness.getD 0.005
  let num_blades := propeller_params.num_blades.getD 2
  let radius := propeller_params.radius.getD 0.127
  let aoa := propeller_params.angle_of_attack.getD 5.0
  let tip_speed := (rpm / 60.0) * 2 * Real.pi * radius
  let broadband_spl := calculate_broadband_noise velocity chord thickness aoa distance
  let tonal_results := calculate_tonal_noise rpm tip_speed num_blades distance 3
  let vortex_freq := calculate_vortex_noise_freq velocity thickness 0.2
  let vortex_spl := calculate_vortex_noise_spl velocity thickness distance
  let tonal_spl_primary := tonal_harmonic_spl tip_speed num_blades 1 distance
  { total_spl_db := combine_spl_components broadband_spl tonal_spl_primary vortex_spl
    broadband_spl_db := broadband_spl
    tonal_spl_db := tonal_spl_primary
    vortex_spl_db := vortex_spl
    vortex_frequency_hz := vortex_freq
    harmonics := tonal_results }

/-- Helper for the Python substring test: does the first character list start
with the second. -/
def list_has_pre : List Char → List Char → Bool
  | _, [] => true
  | [], _ :: _ => false
  | a :: as, b :: bs => a == b && list_has_pre as bs

/-- Helper for the Python substring test: does the pattern occur anywhere in
the character list. -/
def list_has_substr (pattern : List Char) : List Char → Bool
  | [] => pattern.isEmpty
  | c :: cs => list_has_pre (c :: cs) pattern || list_has_substr pattern cs

/-- Python substring membership test (pattern in s). -/
def str_has_substr (s pattern : String) : Bool :=
  list_has_substr pattern.data s.data

/-- AeroacousticMetrics.calculate_weighted_noise_metric: combines the SPL
entries of a labelled spectrum (skipping entries whose label contains the
substring frequency_hz) via weighted pressure-squared summation; weights
default to 1.0 per label. -/
def calculate_weighted_noise_metric (noise_spectrum : List (String × ℝ))
    (frequency_weights : Option (List (String × ℝ))) : ℝ :=
  if noise_spectrum = [] then 0.0
  else
    let weights := frequency_weights.getD []
    let p_ref : ℝ := 2e-5
    let total_weighted_pressure_sq :=
      (noise_spectrum.map fun kv =>
        if str_has_substr kv.1 "frequency_hz" then 0
        else
          let weight := ((weights.find? fun w => w.1 == kv.1).map Prod.snd).getD 1.0
          (weight * (p_ref * (10 : ℝ) ^ (kv.2 / 20.0))) ^ (2 : ℕ)).sum
    if 0 < total_weighted_pressure_sq then
      20 * Real.logb 10 (Real.sqrt total_weighted_pressure_sq / p_ref)
    else 0.0

/-- AeroacousticMetrics.calculate_noise_to_thrust_ratio: the float inf
sentinel for non-positive thrust is the top element of EReal. -/
def calculate_noise_to_thrust_ratio (noise_spl_db thrust_N reference_thrust : ℝ) : EReal :=
  if thrust_N ≤ 0 then ⊤
  else ((noise_spl_db / (thrust_N / reference_thrust) : ℝ) : EReal)

/-- AeroacousticMetrics.calculate_acoustic_efficiency. -/
def calculate_acoustic_efficiency (noise_spl_db thrust_N power_W : ℝ) : ℝ :=
  if noise_spl_db ≤ 0 ∨ power_W ≤ 0 then 0.0
  else (thrust_N / power_W) * (100.0 / noise_spl_db) * 1000

/-- AeroacousticMetrics.calculate_noise_reduction_percentage, generalised to
an EReal modified NTR as produced by the NTR computation (the source works
directly on floats, where the modified value may be inf). -/
def calculate_noise_reduction_percentage (baseline_ntr : ℝ) (modified_ntr : EReal) : EReal :=
  if baseline_ntr ≤ 0 then 0
  else (((baseline_ntr : EReal) - modified_ntr) / (baseline_ntr : EReal)) * (100 : EReal)

/-- Result dict of ThrustCalculator.calculate_thrust_blade_element. -/
structure ThrustResults where
  thrust_N : ℝ
  torque_Nm : ℝ
  power_W : ℝ
  efficiency : ℝ

/-- Result dict of AeroacousticMetrics.evaluate_design_performance. The two
comparison keys exist exactly when a baseline NTR is supplied. -/
structure PerformanceMetrics where
  noise_to_thrust_ratio_dB_per_N : EReal
  acoustic_efficiency : ℝ
  total_noise_spl_db : ℝ
  thrust_N : ℝ
  power_W : ℝ
  propulsive_efficiency : ℝ
  broadband_noise_db : ℝ
  tonal_noise_db : ℝ
  vortex_noise_db : ℝ
  noise_reduction_percentage : Option EReal
  meets_15_percent_target : Option Prop

/-- AeroacousticMetrics.evaluate_design_performance. The 15.0 threshold is a
literal in the source; the function takes no threshold parameter. -/
def evaluate_design_performance (noise_results : NoiseResults) (thrust_results : ThrustResults)
    (baseline_ntr : Option ℝ) : PerformanceMetrics :=
  let total_noise := noise_results.total_spl_db
  let thrust := thrust_results.thrust_N
  let power := thrust_results.power_W
  let efficiency := thrust_results.efficiency
  let ntr := calculate_noise_to_thrust_ratio total_noise thrust 1.0
  let acoustic_eff := calculate_acoustic_efficiency total_noise thrust power
  { noise_to_thrust_ratio_dB_per_N := ntr
    acoustic_efficiency := acoustic_eff
    total_noise_spl_db := total_noise
    thrust_N := thrust
    power_W := power
    propulsive_efficiency := efficiency
    broadband_noise_db := noise_results.broadband_spl_db
    tonal_noise_db := noise_results.tonal_spl_db
    vortex_noise_db := noise_results.vortex_spl_db
    noise_reduction_percentage :=
      baseline_ntr.map fun b => calculate_noise_reduction_percentage b ntr
    meets_15_percent_target :=
      baseline_ntr.map fun b => (15 : EReal) ≤ calculate_noise_reduction_percentage b ntr }

/-- Blade parameter dict built by DesignEvaluator.evaluate_design and consumed
by calculate_thrust_blade_element (the evaluator supplies all five keys). -/
structure BladeParams where
  radius : ℝ
  chord_root : ℝ
  chord_tip : ℝ
  pitch_angle : ℝ
  cl_slope : ℝ

/-- Radial station i of the blade-element integration: np.linspace of
num_elements points from 20 percent radius to the tip. -/
def blade_element_r (radius : ℝ) (num_elements i : ℕ) : ℝ :=
  0.2 * radius + (i : ℝ) * ((radius - 0.2 * radius) / ((num_elements : ℝ) - 1))

/-- ThrustCalculator.calculate_thrust_blade_element: rectangle-rule sums of
the per-element thrust and torque contributions; angle of attack is the
pitch angle in radians (induced velocity neglected), lift linear in alpha,
drag quadratic; efficiency is ideal induced power over computed power,
clamped by min to 1.0 with a 0.0 sentinel when power is not positive. -/
def calculate_thrust_blade_element (air_density rpm : ℝ) (blade_params : BladeParams)
    (num_blades : ℕ) (num_elements : ℕ) : ThrustResults :=
  let omega := rpm * 2 * Real.pi / 60.0
  let radius := blade_params.radius
  let chord_root := blade_params.chord_root
  let chord_tip := blade_params.chord_tip
  let pitch_angle := blade_params.pitch_angle * Real.pi / 180.0
  let cl_slope := blade_params.cl_slope
  let dr := (radius - 0.2 * radius) / ((num_elements : ℝ) - 1)
  let alpha := pitch_angle
  let cl := cl_slope * alpha
  let cd := 0.01 + 0.05 * alpha ^ (2 : ℕ)
  let chord := fun r : ℝ => chord_root + (chord_tip - chord_root) * (r / radius)
  let total_thrust := ∑ i ∈ Finset.range num_elements,
    0.5 * air_density * (omega * blade_element_r radius num_elements i) ^ (2 : ℕ) *
      chord (blade_element_r radius num_elements i) * cl * dr * (num_blades : ℝ)
  let total_torque := ∑ i ∈ Finset.range num_elements,
    0.5 * air_density * (omega * blade_element_r radius num_elements i) ^ (2 : ℕ) *
      chord (blade_element_r radius num_elements i) * cd *
      blade_element_r radius num_elements i * dr * (num_blades : ℝ)
  let power := total_torque * omega
  let efficiency :=
    if 0 < power then
      let v_induced := Real.sqrt (total_thrust / (2 * air_density * Real.pi * radius ^ (2 : ℕ)))
      total_thrust * v_induced / power
    else 0.0
  { thrust_N := total_thrust
    torque_Nm := total_torque
    power_W := power
    efficiency := min efficiency 1.0 }

/-- ThrustCalculator.calculate_figure_of_merit: 0.0 sentinel for non-positive
power, otherwise ideal hover induced power over actual power, clamped to 1.0. -/
def calculate_figure_of_merit (air_density thrust power radius : ℝ) : ℝ :=
  if power ≤ 0 then 0.0
  else
    let disk_area := Real.pi * radius ^ (2 : ℕ)
    let v_induced_ideal := Real.sqrt (thrust / (2 * air_density * disk_area))
    min (thrust * v_induced_ideal / power) 1.0

/-- OwlWingSerrations.calculate_serration_geometry. A zero wavelength makes
the source raise ZeroDivisionError (serration count and angle divide by it),
modelled as none. -/
def calculate_serration_geometry (chord_length serration_depth_ratio serration_wavelength_ratio : ℝ)
    (num_serrations : Option ℤ) : Option SerrationParams :=
  let depth := chord_length * serration_depth_ratio
  let wavelength := chord_length * serration_wavelength_ratio
  if wavelength = 0 then none
  else
    let num := num_serrations.getD (pyInt (0.5 * chord_length / wavelength))
    some { depth_m := depth
           wavelength_m := wavelength
           num_serrations := num
           angle_deg := Real.arctan (depth / (wavelength / 2)) * 180 / Real.pi
           depth_ratio := serration_depth_ratio
           wavelength_ratio := serration_wavelength_ratio }

/-- Result dict of OwlWingSerrations.estimate_noise_reduction. -/
structure OwlReductionResult where
  noise_reduction_db : ℝ
  reduced_noise_db : ℝ
  effectiveness_factor : ℝ
  reduction_percentage : ℝ

/-- OwlWingSerrations.estimate_noise_reduction. A zero frequency makes the
acoustic-wavelength division raise; a zero baseline makes the final
reduction_percentage division raise; both modelled as none. Note the computed
reduction itself does not depend on the baseline argument. -/
def owl_estimate_noise_reduction (baseline_noise_db : ℝ) (serration_params : SerrationParams)
    (frequency_hz flow_velocity : ℝ) : Option OwlReductionResult :=
  if frequency_hz = 0 then none
  else
    let speed_of_sound : ℝ := 343.0
    let acoustic_wavelength := speed_of_sound / frequency_hz
    let optimal_wavelength := acoustic_wavelength / 4
    let wavelength_ratio := serration_params.wavelength_m / optimal_wavelength
    let effectiveness :=
      if wavelength_ratio < 0.1 then 0.3
      else if wavelength_ratio < 0.5 then 0.3 + 0.4 * (wavelength_ratio - 0.1) / 0.4
      else if wavelength_ratio ≤ 2.0 then 0.7 + 0.3 * (1.0 - |wavelength_ratio - 1.0|)
      else 0.5 * Real.exp (-(wavelength_ratio - 2.0) / 2.0)
    let base_reduction := 2.0 + 5.0 * effectiveness
    let depth_factor := min (serration_params.depth_m / 0.01) 1.0
    let noise_reduction_db := base_reduction * depth_factor * 2.0
    if baseline_noise_db = 0 then none
    else some { noise_reduction_db := noise_reduction_db
                reduced_noise_db := baseline_noise_db - noise_reduction_db
                effectiveness_factor := effectiveness
                reduction_percentage := noise_reduction_db / baseline_noise_db * 100 }

/-- OwlWingSerrations.apply_to_blade_design: copies the blade geometry dict,
stores the serration parameters, tags the feature name and applies the
drag-coefficient penalty. -/
def owl_apply_to_blade_design (blade_geometry : Geometry) (serration_config : Option SerrationParams) :
    Option Geometry :=
  let chord_length := blade_geometry.chord_length.getD 0.05
  let paramsOpt :=
    match serration_config with
    | none => calculate_serration_geometry chord_length 0.05 0.02 none
    | some c => some c
  paramsOpt.map fun serration_params =>
    let base_drag_coeff := blade_geometry.drag_coefficient.getD 0.02
    let serration_drag_penalty := 0.02 + 0.03 * (serration_params.depth_ratio / 0.1)
    { blade_geometry with
        trailing_edge_serrations := some serration_params
        bio_inspired_feature := some "owl_wing_serrations"
        drag_coefficient := some (base_drag_coeff * (1 + serration_drag_penalty)) }

/-- HumpbackWhaleTubercles.calculate_tubercle_geometry. A zero spanwise
wavelength makes the tubercle-count division raise, modelled as none. -/
def calculate_tubercle_geometry (blade_span amplitude_ratio wavelength_ratio : ℝ)
    (num_tubercles : Option ℤ) : Option TubercleParams :=
  let wavelength := blade_span * wavelength_ratio
  match num_tubercles with
  | none =>
      if wavelength = 0 then none
      else
        let num := max 3 (pyInt (blade_span / wavelength))
        let wavelength2 := blade_span / (num : ℝ)
        some { num_tubercles := num
               wavelength_m := wavelength2
               amplitude_ratio := amplitude_ratio
               wavelength_ratio := wavelength2 / blade_span
               span_m := blade_span }
  | some num =>
      if (num : ℝ) = 0 then none
      else
        let wavelength2 := blade_span / (num : ℝ)
        some { num_tubercles := num
               wavelength_m := wavelength2
               amplitude_ratio := amplitude_ratio
               wavelength_ratio := wavelength2 / blade_span
               span_m := blade_span }

/-- Result dict of HumpbackWhaleTubercles.estimate_noise_reduction. -/
structure TubercleReductionResult where
  noise_reduction_db : ℝ
  reduced_noise_db : ℝ
  vortex_noise_reduction_db : ℝ
  broadband_noise_increase_db : ℝ
  aoa_effectiveness_factor : ℝ
  reduction_percentage : ℝ

/-- HumpbackWhaleTubercles.estimate_noise_reduction. A zero baseline makes the
final reduction_percentage division raise, modelled as none. -/
def tubercle_estimate_noise_reduction (baseline_noise_db : ℝ) (tubercle_params : TubercleParams)
    (operating_conditions : Conditions) : Option TubercleReductionResult :=
  let num_tubercles := tubercle_params.num_tubercles
  let amplitude_ratio := tubercle_params.amplitude_ratio
  let aoa := operating_conditions.angle_of_attack.getD 5.0
  let aoa_factor :=
    if aoa < 5 then 0.4
    else if aoa < 10 then 0.4 + 0.4 * (aoa - 5) / 5
    else 0.8 + 0.2 * min ((aoa - 10) / 10) 1.0
  let tubercle_factor := min ((num_tubercles : ℝ) / 5.0) 1.0
  let amplitude_factor := min (amplitude_ratio / 0.12) 1.0
  let vortex_reduction := (3.0 + 5.0 * aoa_factor * tubercle_factor * amplitude_factor) * 2.2
  let broadband_increase := 0.5 + 0.5 * amplitude_ratio / 0.12
  let net_reduction := vortex_reduction - broadband_increase
  if baseline_noise_db = 0 then none
  else some { noise_reduction_db := net_reduction
              reduced_noise_db := baseline_noise_db - net_reduction
              vortex_noise_reduction_db := vortex_reduction
              broadband_noise_increase_db := broadband_increase
              aoa_effectiveness_factor := aoa_factor
              reduction_percentage := net_reduction / baseline_noise_db * 100 }

/-- HumpbackWhaleTubercles.apply_to_blade_design. -/
def tubercle_apply_to_blade_design (blade_geometry : Geometry) (tubercle_config : Option TubercleParams) :
    Option Geometry :=
  let blade_span := blade_geometry.radius.getD 0.127
  let paramsOpt :=
    match tubercle_config with
    | none => calculate_tubercle_geometry blade_span 0.12 0.25 none
    | some c => some c
  paramsOpt.map fun tubercle_params =>
    { blade_geometry with
        leading_edge_tubercles := some tubercle_params
        bio_inspired_feature := some "humpback_whale_tubercles"
        cl_max := some (blade_geometry.cl_max.getD 1.2 * 1.075)
        drag_coefficient := some (blade_geometry.drag_coefficient.getD 0.02 * (1 + 0.025))
        stall_angle_deg := some (blade_geometry.stall_angle_deg.getD 12.0 + 2.0) }

/-- DragonflyCorrugations.calculate_corrugation_geometry. A zero wavelength
makes the corrugation-count and profile-angle divisions raise, modelled as none. -/
def calculate_corrugation_geometry (chord_length corrugation_depth_ratio corrugation_wavelength_ratio : ℝ)
    (num_corrugations : Option ℤ) : Option CorrugationParams :=
  let depth := chord_length * corrugation_depth_ratio
  let wavelength := chord_length * corrugation_wavelength_ratio
  if wavelength = 0 then none
  else
    let num := num_corrugations.getD (max (pyInt (chord_length / wavelength)) 3)
    some { depth_m := depth
           wavelength_m := wavelength
           num_corrugations := num
           profile_angle_deg := Real.arctan (2 * depth / wavelength) * 180 / Real.pi
           depth_ratio := corrugation_depth_ratio
           wavelength_ratio := corrugation_wavelength_ratio }

/-- Result dict of DragonflyCorrugations.estimate_noise_reduction. -/
structure CorrugationReductionResult where
  noise_reduction_db : ℝ
  reduced_noise_db : ℝ
  boundary_layer_reduction_db : ℝ
  vortex_reduction_db : ℝ
  friction_increase_db : ℝ
  re_effectiveness_factor : ℝ
  reduction_percentage : ℝ

/-- DragonflyCorrugations.estimate_noise_reduction. A zero parameter
wavelength makes the surface-area-ratio division raise and a zero baseline
makes the reduction_percentage division raise; both modelled as none. -/
def corrugation_estimate_noise_reduction (baseline_noise_db : ℝ) (corrugation_params : CorrugationParams)
    (reynolds_number flow_velocity : ℝ) : Option CorrugationReductionResult :=
  let re_factor :=
    if reynolds_number < 100000 then 1.0
    else if reynolds_number < 500000 then 1.0 - 0.5 * (reynolds_number - 100000) / 400000
    else 0.5 * Real.exp (-(reynolds_number - 500000) / 500000)
  let depth_factor := min (corrugation_params.depth_m / 0.002) 1.0
  let num_factor := min ((corrugation_params.num_corrugations : ℝ) / 10.0) 1.0
  let boundary_layer_reduction := (2.0 + 3.0 * re_factor * depth_factor * num_factor) * 2.1
  let vortex_reduction := (1.0 + 2.0 * re_factor * num_factor) * 2.1
  if corrugation_params.wavelength_m = 0 then none
  else
    let surface_area_ratio := 1.0 + corrugation_params.depth_m / corrugation_params.wavelength_m
    let friction_increase := 0.5 * (surface_area_ratio - 1.0) * 2.0
    let net_reduction := boundary_layer_reduction + vortex_reduction - friction_increase
    if baseline_noise_db = 0 then none
    else some { noise_reduction_db := net_reduction
                reduced_noise_db := baseline_noise_db - net_reduction
                boundary_layer_reduction_db := boundary_layer_reduction
                vortex_reduction_db := vortex_reduction
                friction_increase_db := friction_increase
                re_effectiveness_factor := re_factor
                reduction_percentage := net_reduction / baseline_noise_db * 100 }

/-- DragonflyCorrugations.estimate_structural_benefits (its blade_material
argument is never read in the source and is omitted here). -/
def estimate_structural_benefits (corrugation_params : CorrugationParams) : Option StructuralBenefits :=
  if corrugation_params.wavelength_m = 0 then none
  else
    let depth_wavelength_ratio := corrugation_params.depth_m / corrugation_params.wavelength_m
    let moment_area_factor := 1.0 + depth_wavelength_ratio ^ (2 : ℕ)
    let stiffness_increase_percentage := (moment_area_factor - 1.0) * 100
    some { stiffness_increase_percentage := stiffness_increase_percentage
           torsional_stiffness_increase_percentage := stiffness_increase_percentage * 0.5
           natural_frequency_increase_percentage := (Real.sqrt moment_area_factor - 1.0) * 100
           moment_area_factor := moment_area_factor
           flutter_resistance_improvement :=
             if 20 < stiffness_increase_percentage then "high" else "moderate" }

/-- DragonflyCorrugations.apply_to_blade_design. -/
def corrugation_apply_to_blade_design (blade_geometry : Geometry)
    (corrugation_config : Option CorrugationParams) : Option Geometry :=
  let chord_length := blade_geometry.chord_length.getD 0.05
  let paramsOpt :=
    match corrugation_config with
    | none => calculate_corrugation_geometry chord_length 0.03 0.05 none
    | some c => some c
  paramsOpt.bind fun corrugation_params =>
    (estimate_structural_benefits corrugation_params).map fun structural_benefits =>
      { blade_geometry with
          surface_corrugations := some corrugation_params
          bio_inspired_feature := some "dragonfly_corrugations"
          structural_improvements := some structural_benefits
          drag_coefficient := some (blade_geometry.drag_coefficient.getD 0.02 * (1 + 0.04))
          cl_max := some (blade_geometry.cl_max.getD 1.2 * 1.05) }

/-- Per-feature-name dict of optional parameter records: used both for the
custom_configs argument of create_design and for the feature_params argument
of estimate_combined_noise_reduction. A none field models a missing key (or
the empty-dict default, which makes the per-feature reduction estimates
raise KeyError when accessed). -/
structure FeatureKeyedParams where
  owl_serrations : Option SerrationParams := none
  humpback_tubercles : Option TubercleParams := none
  dragonfly_corrugations : Option CorrugationParams := none

/-- BioInspiredDesignFactory.create_design: applies the recognised features
in the fixed source order (serrations, tubercles, corrugations), each only
when its name occurs in the requested list, then records the applied list. -/
def create_design (base_geometry : Geometry) (features : List String)
    (custom_configs : Option FeatureKeyedParams) : Option Geometry :=
  let configs := custom_configs.getD {}
  (if "owl_serrations" ∈ features then
      owl_apply_to_blade_design base_geometry configs.owl_serrations
    else some base_geometry).bind fun g1 =>
  (if "humpback_tubercles" ∈ features then
      tubercle_apply_to_blade_design g1 configs.humpback_tubercles
    else some g1).bind fun g2 =>
  (if "dragonfly_corrugations" ∈ features then
      corrugation_apply_to_blade_design g2 configs.dragonfly_corrugations
    else some g2).bind fun g3 =>
  let applied_features :=
    (if "owl_serrations" ∈ features then ["owl_serrations"] else []) ++
    (if "humpback_tubercles" ∈ features then ["humpback_tubercles"] else []) ++
    (if "dragonfly_corrugations" ∈ features then ["dragonfly_corrugations"] else [])
  some { g3 with bio_inspired_features := some applied_features }

/-- Running state of the sequential reduction loop in
estimate_combined_noise_reduction: accumulated reduction sum, the running
noise level, and the individual_reductions dict. -/
structure LoopState where
  total_reduction : ℝ
  current_noise : ℝ
  individual_reductions : List (String × ℝ)

/-- Assignment into a string-keyed dict: overwrite the existing entry or
append a new one (Python dict assignment semantics, insertion-ordered). -/
def dict_insert (l : List (String × ℝ)) (k : String) (v : ℝ) : List (String × ℝ) :=
  if l.any fun kv => kv.1 == k then l.map fun kv => if kv.1 == k then (k, v) else kv
  else l ++ [(k, v)]

/-- One iteration of the feature loop of estimate_combined_noise_reduction:
a recognised feature's reduce is invoked on the current running noise level
and the state advances to the reduced level; an unrecognised name matches no
branch and leaves the state unchanged. -/
def reduce_step (feature_params : FeatureKeyedParams) (operating_conditions : Conditions)
    (st : LoopState) (feature : String) : Option LoopState :=
  if feature = "owl_serrations" then
    match feature_params.owl_serrations with
    | none => none
    | some params =>
        (owl_estimate_noise_reduction st.current_noise params
          (operating_conditions.frequency_hz.getD 1000)
          (operating_conditions.velocity.getD 10.0)).map fun r =>
          ⟨st.total_reduction + r.noise_reduction_db, r.reduced_noise_db,
            dict_insert st.individual_reductions "owl_serrations" r.noise_reduction_db⟩
  else if feature = "humpback_tubercles" then
    match feature_params.humpback_tubercles with
    | none => none
    | some params =>
        (tubercle_estimate_noise_reduction st.current_noise params operating_conditions).map fun r =>
          ⟨st.total_reduction + r.noise_reduction_db, r.reduced_noise_db,
            dict_insert st.individual_reductions "humpback_tubercles" r.noise_reduction_db⟩
  else if feature = "dragonfly_corrugations" then
    match feature_params.dragonfly_corrugations with
    | none => none
    | some params =>
        (corrugation_estimate_noise_reduction st.current_noise params
          (operating_conditions.reynolds_number.getD 200000)
          (operating_conditions.velocity.getD 10.0)).map fun r =>
          ⟨st.total_reduction + r.noise_reduction_db, r.reduced_noise_db,
            dict_insert st.individual_reductions "dragonfly_corrugations" r.noise_reduction_db⟩
  else some st

/-- The sequential feature loop of estimate_combined_noise_reduction, in
input-list order. -/
def reduce_loop (feature_params : FeatureKeyedParams) (operating_conditions : Conditions) :
    List String → LoopState → Option LoopState
  | [], st => some st
  | feature :: rest, st =>
      (reduce_step feature_params operating_conditions st feature).bind fun st2 =>
        reduce_loop feature_params operating_conditions rest st2

/-- BioInspiredDesignFactory.estimate_combined_noise_reduction: runs the
sequential loop from the baseline, applies the synergy multiplier
1 + 0.18 * (len(features) - 1) to the summed reduction when more than one
feature name was listed, and returns the composition record. Its
reduction_percentage divides by the baseline, so a zero baseline raises
(modelled as none). -/
def estimate_combined_noise_reduction (baseline_noise_db : ℝ) (features : List String)
    (feature_params : FeatureKeyedParams) (operating_conditions : Conditions) :
    Option CompositionResult :=
  (reduce_loop feature_params operating_conditions features ⟨0.0, baseline_noise_db, []⟩).bind
    fun st =>
      let interaction_factor :=
        if 1 < features.length then 1.0 + 0.18 * ((features.length : ℝ) - 1) else 1.0
      let effective_reduction :=
        if 1 < features.length then
          st.total_reduction * (1.0 + 0.18 * ((features.length : ℝ) - 1))
        else st.total_reduction
      if baseline_noise_db = 0 then none
      else some { total_reduction_db := effective_reduction
                  final_noise_db := baseline_noise_db - effective_reduction
                  individual_reductions := st.individual_reductions
                  interaction_factor := interaction_factor
                  reduction_percentage := effective_reduction / baseline_noise_db * 100 }

/-- Aggregate record returned by DesignEvaluator.evaluate_design. -/
structure Evaluation where
  noise_analysis : NoiseResults
  thrust_analysis : ThrustResults
  performance_metrics : PerformanceMetrics
  propeller_geometry : Geometry
  operating_conditions : Conditions

/-- DesignEvaluator.evaluate_design: noise model, then blade-element thrust
on the evaluator-built blade dict, then the metrics engine. -/
def evaluate_design (propeller_geometry : Geometry) (operating_conditions : Conditions)
    (baseline_ntr : Option ℝ) : Evaluation :=
  let noise_results := calculate_total_noise propeller_geometry operating_conditions 1.0
  let rpm := operating_conditions.rpm.getD 5000
  let blade_params : BladeParams :=
    { radius := propeller_geometry.radius_m.getD 0.127
      chord_root := propeller_geometry.chord_root.getD 0.03
      chord_tip := propeller_geometry.chord_tip.getD 0.015
      pitch_angle := propeller_geometry.pitch_angle.getD 10.0
      cl_slope := propeller_geometry.cl_slope.getD (2 * 3.14159) }
  let num_blades := propeller_geometry.num_blades.getD 2
  let thrust_results := calculate_thrust_blade_element default_air_density rpm blade_params num_blades 20
  let performance_metrics := evaluate_design_performance noise_results thrust_results baseline_ntr
  { noise_analysis := noise_results
    thrust_analysis := thrust_results
    performance_metrics := performance_metrics
    propeller_geometry := propeller_geometry
    operating_conditions := operating_conditions }

/-- Aggregate record returned by DesignEvaluator.evaluate_bio_inspired_design:
the (possibly noise-overwritten) evaluation plus the applied feature list and
the composed geometry. -/
structure BioEvaluation where
  evaluation : Evaluation
  bio_inspired_features : List String
  modified_geometry : Geometry

/-- Parameter extraction step of evaluate_bio_inspired_design: for each
requested feature, the parameter record stored in the composed geometry
(a missing key yields the empty-dict default, modelled as none). -/
def extract_feature_params (modified_geometry : Geometry) (features : List String) :
    FeatureKeyedParams :=
  { owl_serrations :=
      if "owl_serrations" ∈ features then modified_geometry.trailing_edge_serrations else none
    humpback_tubercles :=
      if "humpback_tubercles" ∈ features then modified_geometry.leading_edge_tubercles else none
    dragonfly_corrugations :=
      if "dragonfly_corrugations" ∈ features then modified_geometry.surface_corrugations else none }

/-- DesignEvaluator.evaluate_bio_inspired_design: compose the geometry,
evaluate it once for an initial noise figure, run the combined reduction
with that figure as baseline, overwrite the noise total and recompute the
performance metrics from the updated noise and the unchanged thrust. -/
def evaluate_bio_inspired_design (base_geometry : Geometry) (features : List String)
    (operating_conditions : Conditions) (baseline_ntr : Option ℝ) : Option BioEvaluation :=
  (create_design base_geometry features none).bind fun modified_geometry =>
  let evaluation := evaluate_design modified_geometry operating_conditions baseline_ntr
  if features = [] then
    some ⟨evaluation, features, modified_geometry⟩
  else
    let baseline_noise := evaluation.noise_analysis.total_spl_db
    let feature_params := extract_feature_params modified_geometry features
    (estimate_combined_noise_reduction baseline_noise features feature_params
        operating_conditions).bind fun reduction_results =>
    let noise2 :=
      { evaluation.noise_analysis with
          total_spl_db := reduction_results.final_noise_db
          noise_reduction_db := some reduction_results.total_reduction_db
          bio_inspired_reduction := some reduction_results }
    let performance_metrics :=
      evaluate_design_performance noise2 evaluation.thrust_analysis baseline_ntr
    some ⟨{ evaluation with noise_analysis := noise2, performance_metrics := performance_metrics },
          features, modified_geometry⟩

/-- One draw of the uniform sampler per sampled parameter, injected into the
optimizer iteration (the source calls np.random.uniform once per field). -/
structure SampleSet where
  owl_depth : ℝ
  owl_wavelength : ℝ
  tubercle_amplitude : ℝ
  tubercle_wavelength : ℝ
  corrugation_depth : ℝ
  corrugation_wavelength : ℝ

/-- The draws lie inside the fixed per-feature sampling ranges of
PropellerOptimizer._generate_random_configs. -/
def SampleSet.in_ranges (s : SampleSet) : Prop :=
  0.03 ≤ s.owl_depth ∧ s.owl_depth ≤ 0.08 ∧
  0.015 ≤ s.owl_wavelength ∧ s.owl_wavelength ≤ 0.04 ∧
  0.08 ≤ s.tubercle_amplitude ∧ s.tubercle_amplitude ≤ 0.14 ∧
  0.20 ≤ s.tubercle_wavelength ∧ s.tubercle_wavelength ≤ 0.35 ∧
  0.025 ≤ s.corrugation_depth ∧ s.corrugation_depth ≤ 0.045 ∧
  0.04 ≤ s.corrugation_wavelength ∧ s.corrugation_wavelength ≤ 0.07

/-- Ratio-keyed config dict for one serration sample. -/
structure RandomSerrationConfig where
  serration_depth_ratio : ℝ
  serration_wavelength_ratio : ℝ

/-- Ratio-keyed config dict for one tubercle sample. -/
structure RandomTubercleConfig where
  amplitude_ratio : ℝ
  wavelength_ratio : ℝ

/-- Ratio-keyed config dict for one corrugation sample. -/
structure RandomCorrugationConfig where
  corrugation_depth_ratio : ℝ
  corrugation_wavelength_ratio : ℝ

/-- Config dict built by one call of _generate_random_configs. -/
structure RandomConfigs where
  owl_serrations : Option RandomSerrationConfig := none
  humpback_tubercles : Option RandomTubercleConfig := none
  dragonfly_corrugations : Option RandomCorrugationConfig := none

/-- PropellerOptimizer._generate_random_configs with the sampler draws made
explicit. -/
def generate_random_configs (features : List String) (s : SampleSet) : RandomConfigs :=
  { owl_serrations :=
      if "owl_serrations" ∈ features then some ⟨s.owl_depth, s.owl_wavelength⟩ else none
    humpback_tubercles :=
      if "humpback_tubercles" ∈ features then some ⟨s.tubercle_amplitude, s.tubercle_wavelength⟩
      else none
    dragonfly_corrugations :=
      if "dragonfly_corrugations" ∈ features then
        some ⟨s.corrugation_depth, s.corrugation_wavelength⟩
      else none }

/-- Data flow of one iteration of PropellerOptimizer.optimize_bio_inspired_parameters
(source lines 53-63): custom_configs is drawn from the sampler, and the trial
evaluation is the call the source actually makes — evaluate_bio_inspired_design
with base geometry, features, conditions and baseline NTR only; the drawn
configs are not passed to it. -/
def optimizer_trial (base_geometry : Geometry) (features : List String)
    (operating_conditions : Conditions) (baseline_ntr : Option ℝ) (s : SampleSet) :
    RandomConfigs × Option BioEvaluation :=
  (generate_random_configs features s,
   evaluate_bio_inspired_design base_geometry features operating_conditions baseline_ntr)

/-- Reference store modelling Python dict identity: a list of geometry dicts
indexed by reference; dict.copy() allocates a fresh reference at the end of
the store. -/
def store_read (s : List Geometry) (r : ℕ) : Geometry := s.getD r {}

/-- OwlWingSerrations.apply_to_blade_design at the reference level: the body
reads the dict at the argument reference, builds the mutated copy, and
writes it at a fresh reference; the argument reference is never written. -/
def owl_apply_store (s : List Geometry) (r : ℕ) (cfg : Option SerrationParams) :
    Option (List Geometry × ℕ) :=
  (owl_apply_to_blade_design (store_read s r) cfg).map fun g2 => (s ++ [g2], s.length)

/-- HumpbackWhaleTubercles.apply_to_blade_design at the reference level. -/
def tubercle_apply_store (s : List Geometry) (r : ℕ) (cfg : Option TubercleParams) :
    Option (List Geometry × ℕ) :=
  (tubercle_apply_to_blade_design (store_read s r) cfg).map fun g2 => (s ++ [g2], s.length)

/-- DragonflyCorrugations.apply_to_blade_design at the reference level. -/
def corrugation_apply_store (s : List Geometry) (r : ℕ) (cfg : Option CorrugationParams) :
    Option (List Geometry × ℕ) :=
  (corrugation_apply_to_blade_design (store_read s r) cfg).map fun g2 => (s ++ [g2], s.length)

/-! Helper lemmas. -/

lemma reference_pressure_pos : (0 : ℝ) < reference_pressure := by
  norm_num [reference_pressure]

lemma rpow10_pos (x : ℝ) : 0 < (10 : ℝ) ^ x :=
  Real.rpow_pos_of_pos (by norm_num) x

lemma rpow_half_sq (x : ℝ) : ((10 : ℝ) ^ (x / 2)) ^ (2 : ℕ) = (10 : ℝ) ^ x := by
  rw [← Real.rpow_natCast ((10 : ℝ) ^ (x / 2)) 2,
    ← Real.rpow_mul (by norm_num : (0 : ℝ) ≤ 10)]
  congr 1
  push_cast
  ring

lemma sqrt_rpow10 (x : ℝ) : Real.sqrt ((10 : ℝ) ^ x) = (10 : ℝ) ^ (x / 2) := by
  rw [← rpow_half_sq x, Real.sqrt_sq (rpow10_pos _).le]

lemma rpow20_sq (x : ℝ) : ((10 : ℝ) ^ (x / 20.0)) ^ (2 : ℕ) = (10 : ℝ) ^ (x / 10) := by
  rw [← Real.rpow_natCast ((10 : ℝ) ^ (x / 20.0)) 2,
    ← Real.rpow_mul (by norm_num : (0 : ℝ) ≤ 10)]
  congr 1
  push_cast
  norm_num
  ring

lemma logb10_rpow (x : ℝ) : Real.logb 10 ((10 : ℝ) ^ x) = x :=
  Real.logb_rpow (by norm_num) (by norm_num)

/-- The pressure-domain combination of the three component SPLs, rewritten to
the reference-pressure-free closed form of the specification. -/
lemma combine_spl_components_eq (b t v : ℝ) :
    combine_spl_components b t v =
      20 * Real.logb 10
        (Real.sqrt ((10 : ℝ) ^ (b / 10) + (10 : ℝ) ^ (t / 10) + (10 : ℝ) ^ (v / 10))) := by
  have hp := reference_pressure_pos
  have key : ∀ x : ℝ, (reference_pressure * (10 : ℝ) ^ (x / 20.0)) ^ (2 : ℕ)
      = reference_pressure ^ (2 : ℕ) * (10 : ℝ) ^ (x / 10) := by
    intro x
    rw [mul_pow, rpow20_sq]
  unfold combine_spl_components
  simp only [key]
  rw [show reference_pressure ^ (2 : ℕ) * (10 : ℝ) ^ (b / 10) +
        reference_pressure ^ (2 : ℕ) * (10 : ℝ) ^ (t / 10) +
        reference_pressure ^ (2 : ℕ) * (10 : ℝ) ^ (v / 10) =
      reference_pressure ^ (2 : ℕ) *
        ((10 : ℝ) ^ (b / 10) + (10 : ℝ) ^ (t / 10) + (10 : ℝ) ^ (v / 10)) by ring]
  rw [Real.sqrt_mul (by positivity), Real.sqrt_sq hp.le,
    mul_div_cancel_left₀ _ (ne_of_gt hp)]

/-- Sum of the three pressure-domain terms is positive. -/
lemma spl_sum_pos (b t v : ℝ) :
    0 < (10 : ℝ) ^ (b / 10) + (10 : ℝ) ^ (t / 10) + (10 : ℝ) ^ (v / 10) := by
  have := rpow10_pos (b / 10)
  have := rpow10_pos (t / 10)
  have := rpow10_pos (v / 10)
  linarith

/-- Generic strict lower bound: any single component is below the combined level. -/
lemma lt_combine_of_lt_sum (x S : ℝ) (hS : (10 : ℝ) ^ (x / 10) < S) :
    x < 20 * Real.logb 10 (Real.sqrt S) := by
  have h1 : Real.sqrt ((10 : ℝ) ^ (x / 10)) < Real.sqrt S :=
    Real.sqrt_lt_sqrt (rpow10_pos _).le hS
  rw [sqrt_rpow10] at h1
  have h2 : Real.logb 10 ((10 : ℝ) ^ (x / 10 / 2)) < Real.logb 10 (Real.sqrt S) :=
    Real.logb_lt_logb (by norm_num) (rpow10_pos _) h1
  rw [logb10_rpow] at h2
  linarith

/-- The combined level strictly exceeds the loudest of the three components. -/
lemma combine_spl_gt_max (b t v : ℝ) :
    max b (max t v) < combine_spl_components b t v := by
  rw [combine_spl_components_eq]
  have hb := rpow10_pos (b / 10)
  have ht := rpow10_pos (t / 10)
  have hv := rpow10_pos (v / 10)
  rcases max_choice b (max t v) with h | h
  · rw [h]; exact lt_combine_of_lt_sum _ _ (by linarith)
  · rw [h]
    rcases max_choice t v with h2 | h2
    · rw [h2]; exact lt_combine_of_lt_sum _ _ (by linarith)
    · rw [h2]; exact lt_combine_of_lt_sum _ _ (by linarith)

lemma logb10_three_lt_half : Real.logb 10 3 < 1 / 2 := by
  rw [Real.logb_lt_iff_lt_rpow (by norm_num) (by norm_num : (0 : ℝ) < 3),
    ← Real.sqrt_eq_rpow]
  exact (Real.lt_sqrt (by norm_num)).mpr (by norm_num)

lemma one_fifth_lt_logb10_three : 1 / 5 < Real.logb 10 3 := by
  rw [Real.lt_logb_iff_rpow_lt (by norm_num) (by norm_num : (0 : ℝ) < 3)]
  by_contra hcon
  push_neg at hcon
  have h5 : ((10 : ℝ) ^ ((1 : ℝ) / 5)) ^ (5 : ℕ) = 10 := by
    rw [← Real.rpow_natCast ((10 : ℝ) ^ ((1 : ℝ) / 5)) 5,
      ← Real.rpow_mul (by norm_num : (0 : ℝ) ≤ 10)]
    norm_num
  have hle := pow_le_pow_left₀ (by norm_num : (0 : ℝ) ≤ 3) hcon 5
  rw [h5] at hle
  norm_num at hle

/-- Strict upper bound when every component is at least 10 dB: the combined
level stays below the naive decibel sum. -/
lemma combine_spl_lt_sum (b t v : ℝ) (hb : 10 ≤ b) (ht : 10 ≤ t) (hv : 10 ≤ v) :
    combine_spl_components b t v < b + t + v := by
  rw [combine_spl_components_eq]
  set M := max b (max t v) with hM
  have hbM : b ≤ M := le_max_left _ _
  have htM : t ≤ M := le_trans (le_max_left _ _) (le_max_right _ _)
  have hvM : v ≤ M := le_trans (le_max_right _ _) (le_max_right _ _)
  have hSle : (10 : ℝ) ^ (b / 10) + (10 : ℝ) ^ (t / 10) + (10 : ℝ) ^ (v / 10)
      ≤ 3 * (10 : ℝ) ^ (M / 10) := by
    have h1 : (10 : ℝ) ^ (b / 10) ≤ (10 : ℝ) ^ (M / 10) :=
      (Real.rpow_le_rpow_left_iff (by norm_num)).mpr (by linarith)
    have h2 : (10 : ℝ) ^ (t / 10) ≤ (10 : ℝ) ^ (M / 10) :=
      (Real.rpow_le_rpow_left_iff (by norm_num)).mpr (by linarith)
    have h3 : (10 : ℝ) ^ (v / 10) ≤ (10 : ℝ) ^ (M / 10) :=
      (Real.rpow_le_rpow_left_iff (by norm_num)).mpr (by linarith)
    linarith
  have hSpos := spl_sum_pos b t v
  have hsq : Real.sqrt ((10 : ℝ) ^ (b / 10) + (10 : ℝ) ^ (t / 10) + (10 : ℝ) ^ (v / 10))
      ≤ Real.sqrt (3 * (10 : ℝ) ^ (M / 10)) := Real.sqrt_le_sqrt hSle
  have hlogle : Real.logb 10
        (Real.sqrt ((10 : ℝ) ^ (b / 10) + (10 : ℝ) ^ (t / 10) + (10 : ℝ) ^ (v / 10)))
      ≤ Real.logb 10 (Real.sqrt (3 * (10 : ℝ) ^ (M / 10))) :=
    Real.logb_le_logb_of_le (by norm_num) (Real.sqrt_pos.mpr hSpos) hsq
  have hval : Real.logb 10 (Real.sqrt (3 * (10 : ℝ) ^ (M / 10)))
      = (1 / 2) * Real.logb 10 3 + M / 10 / 2 := by
    rw [Real.sqrt_mul (by norm_num : (0 : ℝ) ≤ 3), sqrt_rpow10,
      Real.logb_mul (ne_of_gt (Real.sqrt_pos.mpr (by norm_num)))
        (ne_of_gt (rpow10_pos _)),
      Real.sqrt_eq_rpow, Real.logb_rpow_eq_mul_logb_of_pos (by norm_num : (0 : ℝ) < 3),
      logb10_rpow]
  have hlt := logb10_three_lt_half
  have hMsum : M + 20 ≤ b + t + v := by
    rcases max_choice b (max t v) with h | h
    · rw [← hM] at h; rw [h]; linarith
    · rw [← hM] at h
      rcases max_choice t v with h2 | h2
      · rw [h, h2]; linarith
      · rw [h, h2]; linarith
  calc 20 * Real.logb 10
        (Real.sqrt ((10 : ℝ) ^ (b / 10) + (10 : ℝ) ^ (t / 10) + (10 : ℝ) ^ (v / 10)))
      ≤ 20 * ((1 / 2) * Real.logb 10 3 + M / 10 / 2) := by
        rw [← hval]; linarith
    _ < b + t + v := by linarith

lemma list_sum_map_mul_left {α : Type} (l : List α) (f : α → ℝ) (c : ℝ) :
    (l.map fun x => c * f x).sum = c * (l.map f).sum := by
  induction l with
  | nil => simp
  | cons a tl ih => simp only [List.map_cons, List.sum_cons, ih]; ring

lemma list_sum_pos_of_mem {l : List ℝ} (hnn : ∀ x ∈ l, 0 ≤ x) {y : ℝ}
    (hy : y ∈ l) (hypos : 0 < y) : 0 < l.sum := by
  induction l with
  | nil => cases hy
  | cons a tl ih =>
    rw [List.sum_cons]
    rcases List.mem_cons.mp hy with h | h
    · have htl : 0 ≤ tl.sum := List.sum_nonneg fun x hx => hnn x (List.mem_cons_of_mem a hx)
      rw [← h]; linarith
    · have ha : 0 ≤ a := hnn a (List.mem_cons_self a tl)
      have := ih (fun x hx => hnn x (List.mem_cons_of_mem a hx)) h
      linarith

/-- The weighted noise metric with default weights, on a spectrum with at
least one SPL-labelled entry, in the reference-pressure-free closed form. -/
lemma calculate_weighted_noise_metric_default (spectrum : List (String × ℝ))
    (hne : ∃ kv ∈ spectrum, str_has_substr kv.1 "frequency_hz" = false) :
    calculate_weighted_noise_metric spectrum none =
      20 * Real.logb 10 (Real.sqrt ((spectrum.map fun kv =>
        if str_has_substr kv.1 "frequency_hz" then (0 : ℝ)
        else (10 : ℝ) ^ (kv.2 / 10)).sum)) := by
  obtain ⟨kv0, hkv0mem, hkv0⟩ := hne
  have hspectrum_ne : spectrum ≠ [] := by rintro rfl; cases hkv0mem
  unfold calculate_weighted_noise_metric
  rw [if_neg hspectrum_ne]
  have hfun : (fun kv : String × ℝ =>
        if str_has_substr kv.1 "frequency_hz" then (0 : ℝ)
        else
          ((((Option.getD (none : Option (List (String × ℝ))) []).find?
              fun w => w.1 == kv.1).map Prod.snd).getD 1.0 *
            ((2e-5 : ℝ) * (10 : ℝ) ^ (kv.2 / 20.0))) ^ (2 : ℕ))
      = fun kv : String × ℝ =>
        (2e-5 : ℝ) ^ (2 : ℕ) *
          (if str_has_substr kv.1 "frequency_hz" then (0 : ℝ)
           else (10 : ℝ) ^ (kv.2 / 10)) := by
    funext kv
    by_cases hP : str_has_substr kv.1 "frequency_hz"
    · simp [hP]
    · simp only [hP, Bool.false_eq_true, if_false, Option.getD_none, List.find?_nil,
        Option.map_none', Option.getD_none]
      rw [show (1.0 : ℝ) = 1 by norm_num, one_mul, mul_pow, rpow20_sq]
  simp only [Option.getD_none] at hfun ⊢
  rw [hfun, list_sum_map_mul_left]
  set S := (spectrum.map fun kv =>
    if str_has_substr kv.1 "frequency_hz" then (0 : ℝ)
    else (10 : ℝ) ^ (kv.2 / 10)).sum with hS
  have hSpos : 0 < S := by
    apply list_sum_pos_of_mem (y := (10 : ℝ) ^ (kv0.2 / 10))
    · intro x hx
      obtain ⟨kv, _, rfl⟩ := List.mem_map.mp hx
      by_cases hP : str_has_substr kv.1 "frequency_hz"
      · simp [hP]
      · simp only [hP, Bool.false_eq_true, if_false]
        exact (rpow10_pos _).le
    · have : ((10 : ℝ) ^ (kv0.2 / 10)) =
          (fun kv : String × ℝ =>
            if str_has_substr kv.1 "frequency_hz" then (0 : ℝ)
            else (10 : ℝ) ^ (kv.2 / 10)) kv0 := by
        simp [hkv0]
      rw [this]
      exact List.mem_map_of_mem _ hkv0mem
    · exact rpow10_pos _
  have hTpos : 0 < (2e-5 : ℝ) ^ (2 : ℕ) * S := by positivity
  rw [if_pos hTpos, Real.sqrt_mul (by positivity), Real.sqrt_sq (by norm_num : (0 : ℝ) ≤ 2e-5),
    mul_div_cancel_left₀ _ (by norm_num : (2e-5 : ℝ) ≠ 0)]

/-- Reduction percentage at a finite modified NTR, in closed real form. -/
lemma reduction_pct_coe (b x : ℝ) :
    calculate_noise_reduction_percentage b ((x : ℝ) : EReal)
      = if b ≤ 0 then (0 : EReal) else (((b - x) / b * 100 : ℝ) : EReal) := by
  unfold calculate_noise_reduction_percentage
  by_cases hb : b ≤ 0
  · simp [hb]
  · rw [if_neg hb, if_neg hb]
    norm_cast

/-- Radial stations of the blade-element integration stay between 20 percent
radius and the tip. -/
lemma blade_element_r_mem (R : ℝ) (hR : 0 < R) {n : ℕ} (hn : 2 ≤ n) {i : ℕ} (hi : i < n) :
    0.2 * R ≤ blade_element_r R n i ∧ blade_element_r R n i ≤ R := by
  have hn1 : (1 : ℝ) ≤ (n : ℝ) - 1 := by
    have : (2 : ℝ) ≤ (n : ℝ) := by exact_mod_cast hn
    linarith
  have hdr : 0 ≤ (R - 0.2 * R) / ((n : ℝ) - 1) := by
    apply div_nonneg (by linarith) (by linarith)
  constructor
  · unfold blade_element_r
    have := mul_nonneg (Nat.cast_nonneg (α := ℝ) i) hdr
    linarith
  · unfold blade_element_r
    have hi' : (i : ℝ) ≤ (n : ℝ) - 1 := by
      have : (i : ℝ) + 1 ≤ (n : ℝ) := by exact_mod_cast Nat.succ_le_of_lt hi
      linarith
    have hmul : (i : ℝ) * ((R - 0.2 * R) / ((n : ℝ) - 1))
        ≤ ((n : ℝ) - 1) * ((R - 0.2 * R) / ((n : ℝ) - 1)) :=
      mul_le_mul_of_nonneg_right hi' hdr
    have hcalc : ((n : ℝ) - 1) * ((R - 0.2 * R) / ((n : ℝ) - 1)) = R - 0.2 * R := by
      field_simp
    linarith

/-- The linearly tapered chord is nonnegative on the integration interval. -/
lemma taper_chord_nonneg (root tip R r : ℝ) (hroot : 0 < root) (htip : 0 < tip)
    (hR : 0 < R) (h1 : 0.2 * R ≤ r) (h2 : r ≤ R) :
    0 ≤ root + (tip - root) * (r / R) := by
  have ht1 : r / R ≤ 1 := (div_le_one hR).mpr h2
  have ht0 : 0 ≤ r / R := div_nonneg (by linarith) hR.le
  have hsplit : root + (tip - root) * (r / R) = root * (1 - r / R) + tip * (r / R) := by ring
  rw [hsplit]
  have h1' : 0 ≤ root * (1 - r / R) := mul_nonneg hroot.le (by linarith)
  have h2' : 0 ≤ tip * (r / R) := mul_nonneg htip.le ht0
  linarith

/-- Blade-element efficiency lies in the unit interval for valid positive
geometry. -/
lemma blade_element_efficiency_mem (air_density rpm : ℝ) (bp : BladeParams)
    (num_blades num_elements : ℕ) (hρ : 0 < air_density) (hR : 0 < bp.radius)
    (hroot : 0 < bp.chord_root) (htip : 0 < bp.chord_tip) (hpitch : 0 < bp.pitch_angle)
    (hslope : 0 < bp.cl_slope) (hn : 2 ≤ num_elements) :
    0 ≤ (calculate_thrust_blade_element air_density rpm bp num_blades num_elements).efficiency
    ∧ (calculate_thrust_blade_element air_density rpm bp num_blades num_elements).efficiency ≤ 1 := by
  simp only [calculate_thrust_blade_element]
  constructor
  · refine le_min ?_ (by norm_num)
    split_ifs with hP
    · apply div_nonneg _ hP.le
      apply mul_nonneg _ (Real.sqrt_nonneg _)
      apply Finset.sum_nonneg
      intro i hi
      have hr := blade_element_r_mem bp.radius hR hn (Finset.mem_range.mp hi)
      have hch := taper_chord_nonneg bp.chord_root bp.chord_tip bp.radius
        (blade_element_r bp.radius num_elements i) hroot htip hR hr.1 hr.2
      have hcl : 0 ≤ bp.cl_slope * (bp.pitch_angle * Real.pi / 180.0) := by
        apply mul_nonneg hslope.le
        apply div_nonneg (mul_nonneg hpitch.le Real.pi_pos.le) (by norm_num)
      have hn1 : (1 : ℝ) ≤ (num_elements : ℝ) - 1 := by
        have : (2 : ℝ) ≤ (num_elements : ℝ) := by exact_mod_cast hn
        linarith
      have hdr : 0 ≤ (bp.radius - 0.2 * bp.radius) / ((num_elements : ℝ) - 1) :=
        div_nonneg (by linarith) (by linarith)
      have h05ρ : (0 : ℝ) ≤ 0.5 * air_density := by linarith
      exact mul_nonneg (mul_nonneg (mul_nonneg (mul_nonneg
        (mul_nonneg h05ρ (sq_nonneg _)) hch) hcl) hdr) (Nat.cast_nonneg _)
    · norm_num
  · exact le_trans (min_le_right _ _) (by norm_num)

/-- Figure of merit lies in the unit interval for positive inputs. -/
lemma figure_of_merit_mem (air_density thrust power radius : ℝ) (hT : 0 < thrust)
    (hP : 0 < power) :
    0 ≤ calculate_figure_of_merit air_density thrust power radius
    ∧ calculate_figure_of_merit air_density thrust power radius ≤ 1 := by
  unfold calculate_figure_of_merit
  rw [if_neg (not_le.mpr hP)]
  constructor
  · exact le_min (div_nonneg (mul_nonneg hT.le (Real.sqrt_nonneg _)) hP.le) (by norm_num)
  · exact le_trans (min_le_right _ _) (by norm_num)

/-- Reads below the end of a store are unaffected by appending a fresh record. -/
lemma store_read_append (s : List Geometry) (g : Geometry) {r : ℕ} (hr : r < s.length) :
    store_read (s ++ [g]) r = store_read s r := by
  unfold store_read
  exact List.getD_append s [g] {} r hr

/-- The applied-features list built by create_design equals the fixed-order
filter of the three recognised names by membership in the request list. -/
lemma applied_eq_filter (l : List String) :
    (if "owl_serrations" ∈ l then ["owl_serrations"] else []) ++
    (if "humpback_tubercles" ∈ l then ["humpback_tubercles"] else []) ++
    (if "dragonfly_corrugations" ∈ l then ["dragonfly_corrugations"] else []) =
    ["owl_serrations", "humpback_tubercles", "dragonfly_corrugations"].filter
      fun f => decide (f ∈ l) := by
  by_cases h1 : "owl_serrations" ∈ l <;> by_cases h2 : "humpback_tubercles" ∈ l <;>
    by_cases h3 : "dragonfly_corrugations" ∈ l <;> simp [h1, h2, h3]

/-- Any successful create_design records the fixed-order applied-feature list. -/
lemma create_design_features (g : Geometry) (l : List String)
    (cfgs : Option FeatureKeyedParams) (g2 : Geometry)
    (h : create_design g l cfgs = some g2) :
    g2.bio_inspired_features =
      some (["owl_serrations", "humpback_tubercles", "dragonfly_corrugations"].filter
        fun f => decide (f ∈ l)) := by
  simp only [create_design] at h
  obtain ⟨g1, _, h⟩ := Option.bind_eq_some.mp h
  obtain ⟨ga, _, h⟩ := Option.bind_eq_some.mp h
  obtain ⟨gb, _, h⟩ := Option.bind_eq_some.mp h
  obtain rfl : _ = g2 := Option.some.inj h
  exact congrArg some (applied_eq_filter l)

/-- Frame property of the store-level apply pattern: the body writes only a
freshly allocated reference. -/
lemma store_apply_frame {X : Option Geometry} {s : List Geometry} {r : ℕ}
    {s2 : List Geometry} {m : ℕ} (hr : r < s.length)
    (h : X.map (fun g2 => (s ++ [g2], s.length)) = some (s2, m)) :
    store_read s2 r = store_read s r ∧ m ≠ r := by
  obtain ⟨g2, _, hmap⟩ := Option.map_eq_some'.mp h
  injection hmap with h1 h2
  subst h1
  subst h2
  exact ⟨store_read_append s g2 hr, ne_of_gt hr⟩

/-- Successful combined-reduction results, decomposed: the synergy factor is
a function of the raw request-list length, the final noise is the baseline
minus the effective reduction, and the effective reduction is the loop sum
scaled by the synergy factor; the baseline is necessarily nonzero. -/
lemma estimate_combined_fields (b : ℝ) (feats : List String) (fp : FeatureKeyedParams)
    (oc : Conditions) (r : CompositionResult)
    (h : estimate_combined_noise_reduction b feats fp oc = some r) :
    r.interaction_factor =
      (if 1 < feats.length then 1.0 + 0.18 * ((feats.length : ℝ) - 1) else 1.0)
    ∧ r.final_noise_db = b - r.total_reduction_db
    ∧ ∃ st, reduce_loop fp oc feats ⟨0.0, b, []⟩ = some st
        ∧ r.total_reduction_db =
          (if 1 < feats.length then
            st.total_reduction * (1.0 + 0.18 * ((feats.length : ℝ) - 1))
          else st.total_reduction)
        ∧ r.individual_reductions = st.individual_reductions
        ∧ b ≠ 0 := by
  unfold estimate_combined_noise_reduction at h
  obtain ⟨st, hst, h⟩ := Option.bind_eq_some.mp h
  by_cases hb : b = 0
  · rw [if_pos hb] at h
    cases h
  · rw [if_neg hb] at h
    obtain rfl : _ = r := Option.some.inj h
    exact ⟨rfl, rfl, st, hst, rfl, rfl, hb⟩

/-- The owl serration reduction estimate does not depend on the baseline it
is handed: the computed reduction is a function of the parameters, the
frequency and the velocity only. -/
lemma owl_reduction_baseline_indep (b b' : ℝ) (p : SerrationParams) (f v : ℝ)
    (s s' : OwlReductionResult)
    (h : owl_estimate_noise_reduction b p f v = some s)
    (h' : owl_estimate_noise_reduction b' p f v = some s') :
    s'.noise_reduction_db = s.noise_reduction_db := by
  unfold owl_estimate_noise_reduction at h h'
  by_cases hf : f = 0
  · rw [if_pos hf] at h
    cases h
  · rw [if_neg hf] at h h'
    by_cases hb : b = 0
    · rw [if_pos hb] at h
      cases h
    · by_cases hb' : b' = 0
      · rw [if_pos hb'] at h'
        cases h'
      · rw [if_neg hb] at h
        rw [if_neg hb'] at h'
        obtain rfl : _ = s := Option.some.inj h
        obtain rfl : _ = s' := Option.some.inj h'
        rfl

/-- A create_design call requesting only owl serrations leaves the
noise-relevant geometry fields unchanged and stores serration parameters. -/
lemma create_design_owl_only (g : Geometry) (mg : Geometry)
    (h : create_design g ["owl_serrations"] none = some mg) :
    mg.chord_length = g.chord_length ∧ mg.blade_thickness = g.blade_thickness
    ∧ mg.num_blades = g.num_blades ∧ mg.radius = g.radius
    ∧ mg.angle_of_attack = g.angle_of_attack
    ∧ ∃ p, mg.trailing_edge_serrations = some p := by
  have m1 : ("owl_serrations" ∈ (["owl_serrations"] : List String)) := by decide
  have m2 : ¬("humpback_tubercles" ∈ (["owl_serrations"] : List String)) := by decide
  have m3 : ¬("dragonfly_corrugations" ∈ (["owl_serrations"] : List String)) := by decide
  simp only [create_design, m1, m2, m3, if_true, if_false, ite_true, ite_false,
    Option.getD_none, Option.some_bind] at h
  obtain ⟨g1, hg1, h⟩ := Option.bind_eq_some.mp h
  obtain rfl : _ = mg := Option.some.inj h
  unfold owl_apply_to_blade_design at hg1
  obtain ⟨sp, _, hg1map⟩ := Option.map_eq_some'.mp hg1
  obtain rfl : _ = g1 := hg1map
  exact ⟨rfl, rfl, rfl, rfl, rfl, sp, rfl⟩

/-- Single-owl combined reduction succeeds whenever the baseline and the
frequency are nonzero and serration parameters are present. -/
lemma estimate_combined_single_owl_isSome (b : ℝ) (fp : FeatureKeyedParams)
    (oc : Conditions) (p : SerrationParams) (hb : b ≠ 0)
    (hf : oc.frequency_hz.getD 1000 ≠ 0) (hp : fp.owl_serrations = some p) :
    (estimate_combined_noise_reduction b ["owl_serrations"] fp oc).isSome := by
  have howl : (owl_estimate_noise_reduction b p (oc.frequency_hz.getD 1000)
      (oc.velocity.getD 10.0)).isSome := by
    simp [owl_estimate_noise_reduction, hf, hb]
  obtain ⟨s, hs⟩ := Option.isSome_iff_exists.mp howl
  simp [estimate_combined_noise_reduction, reduce_loop, reduce_step, hp, hs, hb]

/-- The broadband SPL at the pipeline default parameters (velocity 10, chord
0.05, thickness 0.005, angle of attack 5, distance 1) is nonnegative: the
broadband pressure exceeds the reference pressure. -/
lemma default_broadband_spl_nonneg :
    0 ≤ calculate_broadband_noise 10.0 0.05 0.005 5.0 1.0 := by
  have hvt : (100000 : ℝ) ≤ (10.0 : ℝ) ^ (5.5 : ℝ) := by
    have h5 : (10.0 : ℝ) ^ ((5 : ℕ) : ℝ) ≤ (10.0 : ℝ) ^ (5.5 : ℝ) := by
      apply (Real.rpow_le_rpow_left_iff (by norm_num)).mpr
      push_cast
      norm_num
    rw [Real.rpow_natCast] at h5
    norm_num at h5
    linarith
  have hpress : reference_pressure ≤
      1e-3 * (10.0 : ℝ) ^ (5.5 : ℝ) * (0.05 * 0.005) * (1.0 + 0.5 * |(5.0 : ℝ)| / 15.0) /
        (1.0 : ℝ) ^ (2 : ℕ) := by
    rw [abs_of_pos (by norm_num : (0 : ℝ) < 5.0), reference_pressure]
    nlinarith [hvt]
  have hppos : 0 < 1e-3 * (10.0 : ℝ) ^ (5.5 : ℝ) * (0.05 * 0.005) *
      (1.0 + 0.5 * |(5.0 : ℝ)| / 15.0) / (1.0 : ℝ) ^ (2 : ℕ) :=
    lt_of_lt_of_le reference_pressure_pos hpress
  simp only [calculate_broadband_noise, calculate_spl]
  rw [if_neg (not_le.mpr hppos)]
  apply mul_nonneg (by norm_num)
  apply Real.logb_nonneg (by norm_num)
  rw [show (1.0 : ℝ) = 1 from by norm_num, div_one]
  rw [show (1.0 : ℝ) = 1 from by norm_num] at hpress
  exact (one_le_div reference_pressure_pos).mpr hpress

/-- Concrete serration parameters used by witnesses: wavelength 0.0343 m at
the default 1000 Hz frequency gives the exact wavelength-match value 0.4 on
the linear effectiveness ramp, and depth 0.01 m gives depth factor 1, so the
estimated reduction is exactly 10 dB. -/
def sample_serration_params : SerrationParams :=
  { depth_m := 0.01, wavelength_m := 0.0343, num_serrations := 10,
    angle_deg := 45, depth_ratio := 0.05, wavelength_ratio := 0.02 }

/-- Concrete tubercle parameters used by witnesses. -/
def sample_tubercle_params : TubercleParams :=
  { num_tubercles := 5, wavelength_m := 0.0254, amplitude_ratio := 0.12,
    wavelength_ratio := 0.2, span_m := 0.127 }

/-- Concrete corrugation parameters used by witnesses. -/
def sample_corrugation_params : CorrugationParams :=
  { depth_m := 0.0015, wavelength_m := 0.0025, num_corrugations := 10,
    profile_angle_deg := 45, depth_ratio := 0.03, wavelength_ratio := 0.05 }

/-- Feature-parameter dict holding only the sample serration parameters. -/
def sample_owl_params_dict : FeatureKeyedParams :=
  { owl_serrations := some sample_serration_params }

/-! Claim theorems. -/

/-- C1, counterexample: with the three component SPLs all equal to 1 dB (at
least two components positive), the combined SPL of the total-noise
computation exceeds the naive linear sum 1 + 1 + 1 of the decibel values,
refuting the claimed strict upper bound. -/
theorem c1_counterexample : 1 + 1 + 1 < combine_spl_components 1 1 1 := by
  rw [combine_spl_components_eq]
  rw [show (10 : ℝ) ^ ((1 : ℝ) / 10) + (10 : ℝ) ^ ((1 : ℝ) / 10) + (10 : ℝ) ^ ((1 : ℝ) / 10)
      = 3 * (10 : ℝ) ^ ((1 : ℝ) / 10) by ring]
  rw [Real.sqrt_mul (by norm_num : (0 : ℝ) ≤ 3), sqrt_rpow10,
    Real.logb_mul (ne_of_gt (Real.sqrt_pos.mpr (by norm_num))) (ne_of_gt (rpow10_pos _)),
    Real.sqrt_eq_rpow, Real.logb_rpow_eq_mul_logb_of_pos (by norm_num : (0 : ℝ) < 3),
    logb10_rpow]
  have := one_fifth_lt_logb10_three
  linarith

/-- C1, amended: the total-noise combination equals the pressure-domain
energy-summation formula 20 log10(sqrt(sum of 10^(SPL_i/10))) exactly, as
does the weighted-metric helper with default weights over its SPL-labelled
entries; the combined SPL always strictly exceeds the loudest component; and
it stays strictly below the naive linear sum of the decibel values provided
each component is at least 10 dB (for small positive components the combined
level can exceed the naive sum, see the counterexample). -/
theorem c1_total_noise_energy_summation :
    (∀ g c d, (calculate_total_noise g c d).total_spl_db =
        combine_spl_components (calculate_total_noise g c d).broadband_spl_db
          (calculate_total_noise g c d).tonal_spl_db
          (calculate_total_noise g c d).vortex_spl_db)
    ∧ (∀ b t v : ℝ, combine_spl_components b t v =
        20 * Real.logb 10
          (Real.sqrt ((10 : ℝ) ^ (b / 10) + (10 : ℝ) ^ (t / 10) + (10 : ℝ) ^ (v / 10))))
    ∧ (∀ b t v : ℝ, max b (max t v) < combine_spl_components b t v)
    ∧ (∀ b t v : ℝ, 10 ≤ b → 10 ≤ t → 10 ≤ v → combine_spl_components b t v < b + t + v)
    ∧ (∀ spectrum : List (String × ℝ),
        (∃ kv ∈ spectrum, str_has_substr kv.1 "frequency_hz" = false) →
        calculate_weighted_noise_metric spectrum none =
          20 * Real.logb 10 (Real.sqrt ((spectrum.map fun kv =>
            if str_has_substr kv.1 "frequency_hz" then (0 : ℝ)
            else (10 : ℝ) ^ (kv.2 / 10)).sum))) :=
  ⟨fun _ _ _ => rfl, combine_spl_components_eq, combine_spl_gt_max, combine_spl_lt_sum,
    calculate_weighted_noise_metric_default⟩

/-- C4: in the optimize loop body, the drawn configs are exactly the sampled
values, but the trial's evaluation result is independent of the sampler
draws — the source never passes custom_configs to
evaluate_bio_inspired_design, so every iteration evaluates the identical
default-parameter design, contradicting the claim that the evaluation is a
function of the sampled parameter set. -/
theorem c4_sampled_configs_unused :
    (∀ (g : Geometry) (feats : List String) (oc : Conditions) (bntr : Option ℝ)
        (s : SampleSet),
      (optimizer_trial g feats oc bntr s).1 = generate_random_configs feats s)
    ∧ (∀ (g : Geometry) (feats : List String) (oc : Conditions) (bntr : Option ℝ)
        (s1 s2 : SampleSet),
      (optimizer_trial g feats oc bntr s1).2 = (optimizer_trial g feats oc bntr s2).2) :=
  ⟨fun _ _ _ _ _ => rfl, fun _ _ _ _ _ _ => rfl⟩

/-- C2: for a non-empty feature list, every successful bio-inspired
evaluation composes the geometry, evaluates it once for an initial noise
figure, runs the combined reduction with that figure as composition
baseline, overwrites the noise total with the composed final noise, and
recomputes the performance metrics from the updated noise together with the
unchanged first-pass thrust breakdown. -/
theorem c2_two_pass_evaluation :
    ∀ (g : Geometry) (feats : List String) (oc : Conditions) (bntr : Option ℝ)
      (r : BioEvaluation),
      feats ≠ [] →
      evaluate_bio_inspired_design g feats oc bntr = some r →
      ∃ (mg : Geometry) (red : CompositionResult),
        create_design g feats none = some mg
        ∧ r.modified_geometry = mg
        ∧ estimate_combined_noise_reduction
            (evaluate_design mg oc bntr).noise_analysis.total_spl_db feats
            (extract_feature_params mg feats) oc = some red
        ∧ r.evaluation.noise_analysis.total_spl_db = red.final_noise_db
        ∧ r.evaluation.noise_analysis.noise_reduction_db = some red.total_reduction_db
        ∧ r.evaluation.thrust_analysis = (evaluate_design mg oc bntr).thrust_analysis
        ∧ r.evaluation.performance_metrics =
            evaluate_design_performance r.evaluation.noise_analysis
              (evaluate_design mg oc bntr).thrust_analysis bntr
        ∧ r.bio_inspired_features = feats := by
  intro g feats oc bntr r hfeats h
  unfold evaluate_bio_inspired_design at h
  obtain ⟨mg, hmg, h⟩ := Option.bind_eq_some.mp h
  rw [if_neg hfeats] at h
  obtain ⟨red, hred, h⟩ := Option.bind_eq_some.mp h
  obtain rfl : _ = r := Option.some.inj h
  exact ⟨mg, red, hmg, rfl, hred, rfl, rfl, rfl, rfl, rfl⟩

/-- C2, witness: the two-pass property instantiated on the default geometry
with the owl-serration feature under default conditions. -/
theorem c2_witness :
    ∃ (r : BioEvaluation) (mg : Geometry) (red : CompositionResult),
      evaluate_bio_inspired_design {} ["owl_serrations"] {} none = some r
      ∧ create_design {} ["owl_serrations"] none = some mg
      ∧ estimate_combined_noise_reduction
          (evaluate_design mg {} none).noise_analysis.total_spl_db ["owl_serrations"]
          (extract_feature_params mg ["owl_serrations"]) {} = some red
      ∧ r.evaluation.noise_analysis.total_spl_db = red.final_noise_db
      ∧ r.evaluation.thrust_analysis = (evaluate_design mg {} none).thrust_analysis := by
  have m1 : ("owl_serrations" ∈ (["owl_serrations"] : List String)) := by decide
  have m2 : ¬("humpback_tubercles" ∈ (["owl_serrations"] : List String)) := by decide
  have m3 : ¬("dragonfly_corrugations" ∈ (["owl_serrations"] : List String)) := by decide
  have hmgsome : (create_design ({} : Geometry) ["owl_serrations"] none).isSome := by
    simp only [create_design, m1, m2, m3, if_true, if_false, ite_true, ite_false,
      Option.getD_none, owl_apply_to_blade_design, calculate_serration_geometry]
    norm_num
  obtain ⟨mg, hmg⟩ := Option.isSome_iff_exists.mp hmgsome
  obtain ⟨hcl, hbt, hnb, hrad, haoa, p, hp⟩ := create_design_owl_only {} mg hmg
  have hbroad : (evaluate_design mg ({} : Conditions) none).noise_analysis.broadband_spl_db =
      calculate_broadband_noise 10.0 0.05 0.005 5.0 1.0 := by
    show (calculate_total_noise mg {} 1.0).broadband_spl_db = _
    simp only [calculate_total_noise, hcl, haoa, hbt]
    rfl
  have htotal_eq : (evaluate_design mg ({} : Conditions) none).noise_analysis.total_spl_db =
      combine_spl_components
        (evaluate_design mg ({} : Conditions) none).noise_analysis.broadband_spl_db
        (evaluate_design mg ({} : Conditions) none).noise_analysis.tonal_spl_db
        (evaluate_design mg ({} : Conditions) none).noise_analysis.vortex_spl_db := rfl
  have htotal_pos : 0 < (evaluate_design mg ({} : Conditions) none).noise_analysis.total_spl_db := by
    rw [htotal_eq]
    have hgt := combine_spl_gt_max
      (evaluate_design mg ({} : Conditions) none).noise_analysis.broadband_spl_db
      (evaluate_design mg ({} : Conditions) none).noise_analysis.tonal_spl_db
      (evaluate_design mg ({} : Conditions) none).noise_analysis.vortex_spl_db
    have h0 : (0 : ℝ) ≤
        (evaluate_design mg ({} : Conditions) none).noise_analysis.broadband_spl_db := by
      rw [hbroad]
      exact default_broadband_spl_nonneg
    calc (0 : ℝ) ≤ _ := h0
      _ ≤ _ := le_max_left _ _
      _ < _ := hgt
  have hestsome : (estimate_combined_noise_reduction
      (evaluate_design mg ({} : Conditions) none).noise_analysis.total_spl_db
      ["owl_serrations"] (extract_feature_params mg ["owl_serrations"]) {}).isSome := by
    apply estimate_combined_single_owl_isSome _ _ _ p (ne_of_gt htotal_pos) (by norm_num)
    simp [extract_feature_params, m1, hp]
  obtain ⟨red0, hred0⟩ := Option.isSome_iff_exists.mp hestsome
  have hbiosome : (evaluate_bio_inspired_design ({} : Geometry) ["owl_serrations"] {}
      none).isSome := by
    unfold evaluate_bio_inspired_design
    rw [hmg, Option.some_bind]
    simp only [if_neg (by decide : ¬(["owl_serrations"] = ([] : List String))), hred0,
      Option.some_bind, Option.isSome_some]
  obtain ⟨r, hr⟩ := Option.isSome_iff_exists.mp hbiosome
  obtain ⟨mg', red, hmg', hrmod, hred, hfin, _, hthrust, _, _⟩ :=
    c2_two_pass_evaluation {} ["owl_serrations"] {} none r (by decide) hr
  rw [hmg] at hmg'
  obtain rfl : mg = mg' := Option.some.inj hmg'
  exact ⟨r, mg, red, hr, hmg, hred, hfin, hthrust⟩

/-- C3: combined_reduction runs the per-feature reduce calls sequentially in
input-list order against the running noise level (loop unfolding and append
decomposition), multiplies the summed reduction by the synergy factor
1 + 0.18*(k - 1) computed from the number k of listed features (1.0 for
k at most 1, 1.36 for k = 3), and returns final_noise = baseline minus the
effective reduction. -/
theorem c3_sequential_reduction_and_synergy :
    (∀ (b : ℝ) (feats : List String) (fp : FeatureKeyedParams) (oc : Conditions)
        (r : CompositionResult),
      estimate_combined_noise_reduction b feats fp oc = some r →
      r.interaction_factor =
        (if 1 < feats.length then 1.0 + 0.18 * ((feats.length : ℝ) - 1) else 1.0)
      ∧ r.final_noise_db = b - r.total_reduction_db
      ∧ (feats.length = 3 → r.interaction_factor = 1.36)
      ∧ (feats.length ≤ 1 → r.interaction_factor = 1.0))
    ∧ (∀ (fp : FeatureKeyedParams) (oc : Conditions) (l₁ l₂ : List String) (st : LoopState),
      reduce_loop fp oc (l₁ ++ l₂) st =
        (reduce_loop fp oc l₁ st).bind fun st1 => reduce_loop fp oc l₂ st1)
    ∧ (∀ (fp : FeatureKeyedParams) (oc : Conditions) (f : String) (rest : List String)
        (st : LoopState),
      reduce_loop fp oc (f :: rest) st =
        (reduce_step fp oc st f).bind fun st2 => reduce_loop fp oc rest st2)
    ∧ (∀ (b : ℝ) (feats : List String) (fp : FeatureKeyedParams) (oc : Conditions)
        (st : LoopState) (r : CompositionResult),
      reduce_loop fp oc feats ⟨0.0, b, []⟩ = some st →
      estimate_combined_noise_reduction b feats fp oc = some r →
      r.total_reduction_db =
        (if 1 < feats.length then 1.0 + 0.18 * ((feats.length : ℝ) - 1) else 1.0)
          * st.total_reduction) := by
  refine ⟨?_, ?_, fun _ _ _ _ _ => rfl, ?_⟩
  · intro b feats fp oc r h
    obtain ⟨hfac, hfin, st, hst, htot, hind, hb⟩ := estimate_combined_fields b feats fp oc r h
    refine ⟨hfac, hfin, ?_, ?_⟩
    · intro hlen
      rw [hfac, hlen]
      norm_num
    · intro hlen
      rw [hfac, if_neg (by omega)]
  · intro fp oc l₁ l₂ st
    induction l₁ generalizing st with
    | nil => simp [reduce_loop]
    | cons f rest ih =>
      simp only [List.cons_append, reduce_loop, Option.bind_assoc]
      cases reduce_step fp oc st f with
      | none => simp
      | some st2 => simp [ih]
  · intro b feats fp oc st r hst h
    obtain ⟨_, _, st', hst', htot, _, _⟩ := estimate_combined_fields b feats fp oc r h
    rw [hst] at hst'
    obtain rfl : st = st' := Option.some.inj hst'
    rw [htot]
    split_ifs <;> ring

/-- C3, witness: a single owl-serration feature with the synergy-free
multiplier 1.0, applied at baseline 70 dB with parameters chosen to land on
the linear-ramp effectiveness branch. -/
theorem c3_witness :
    ∃ r, estimate_combined_noise_reduction 70 ["owl_serrations"]
        sample_owl_params_dict {} = some r
      ∧ r.final_noise_db = 70 - r.total_reduction_db
      ∧ r.interaction_factor = 1.0 := by
  have hsome : (estimate_combined_noise_reduction 70 ["owl_serrations"]
      sample_owl_params_dict {}).isSome := by
    simp only [estimate_combined_noise_reduction, reduce_loop, reduce_step,
      owl_estimate_noise_reduction, sample_owl_params_dict, sample_serration_params]
    norm_num
  obtain ⟨r, hr⟩ := Option.isSome_iff_exists.mp hsome
  have hprops := (c3_sequential_reduction_and_synergy.1 70 ["owl_serrations"]
    sample_owl_params_dict {} r hr)
  exact ⟨r, hr, hprops.2.1, hprops.2.2.2 (by norm_num)⟩

/-- C9, counterexample: the owl-serration reduction estimate does not return
a result at baseline noise 0 — its reduction_percentage divides by the
baseline, so the source raises ZeroDivisionError there (modelled as none),
refuting the claim that every baseline, including 0, yields a result. -/
theorem c9_counterexample :
    owl_estimate_noise_reduction 0 sample_serration_params 1000 10 = none := by
  simp only [owl_estimate_noise_reduction, sample_serration_params]
  norm_num

/-- C9, amended: the numeric sentinels hold as documented (0 dB SPL for
non-positive pressure, the infinite NTR for non-positive thrust, 0 figure of
merit for non-positive power), and the per-feature and combined reduction
estimates return a result whenever the baseline (and, for corrugations, the
parameter wavelength; for serrations, the frequency) is nonzero — but a
zero baseline makes every reduction estimate raise instead of returning. -/
theorem c9_defined_results_and_sentinels :
    (∀ p d : ℝ, p ≤ 0 → calculate_spl p d = 0)
    ∧ (∀ n t r : ℝ, t ≤ 0 → calculate_noise_to_thrust_ratio n t r = ⊤)
    ∧ (∀ ρ t pw rad : ℝ, pw ≤ 0 → calculate_figure_of_merit ρ t pw rad = 0.0)
    ∧ (∀ (b : ℝ) (p : SerrationParams) (f v : ℝ), b ≠ 0 → f ≠ 0 →
        (owl_estimate_noise_reduction b p f v).isSome)
    ∧ (∀ (b : ℝ) (p : TubercleParams) (oc : Conditions), b ≠ 0 →
        (tubercle_estimate_noise_reduction b p oc).isSome)
    ∧ (∀ (b : ℝ) (p : CorrugationParams) (re v : ℝ), b ≠ 0 → p.wavelength_m ≠ 0 →
        (corrugation_estimate_noise_reduction b p re v).isSome)
    ∧ (∀ (b : ℝ) (fp : FeatureKeyedParams) (oc : Conditions), b ≠ 0 →
        (estimate_combined_noise_reduction b [] fp oc).isSome)
    ∧ (∀ (p : SerrationParams) (f v : ℝ), owl_estimate_noise_reduction 0 p f v = none)
    ∧ (∀ (p : TubercleParams) (oc : Conditions),
        tubercle_estimate_noise_reduction 0 p oc = none) := by
  refine ⟨fun p d hp => if_pos hp, fun n t r ht => if_pos ht, fun ρ t pw rad hpw => if_pos hpw,
    ?_, ?_, ?_, ?_, ?_, ?_⟩
  · intro b p f v hb hf
    simp [owl_estimate_noise_reduction, hf, hb]
  · intro b p oc hb
    simp [tubercle_estimate_noise_reduction, hb]
  · intro b p re v hb hw
    simp [corrugation_estimate_noise_reduction, hb, hw]
  · intro b fp oc hb
    simp [estimate_combined_noise_reduction, reduce_loop, hb]
  · intro p f v
    by_cases hf : f = 0
    · simp [owl_estimate_noise_reduction, hf]
    · simp [owl_estimate_noise_reduction, hf]
  · intro p oc
    simp [tubercle_estimate_noise_reduction]

/-- C9, witness: the amended theorem applied at concrete sentinel inputs and
at baseline 70 dB with the sample feature parameters. -/
theorem c9_witness :
    calculate_spl (-1) 1 = 0
    ∧ calculate_noise_to_thrust_ratio 80 0 1 = ⊤
    ∧ calculate_figure_of_merit 1.225 2 0 0.127 = 0.0
    ∧ (owl_estimate_noise_reduction 70 sample_serration_params 1000 10).isSome
    ∧ (tubercle_estimate_noise_reduction 70 sample_tubercle_params {}).isSome
    ∧ (corrugation_estimate_noise_reduction 70 sample_corrugation_params 200000 10).isSome
    ∧ (estimate_combined_noise_reduction 70 [] sample_owl_params_dict {}).isSome :=
  ⟨c9_defined_results_and_sentinels.1 (-1) 1 (by norm_num),
   c9_defined_results_and_sentinels.2.1 80 0 1 (by norm_num),
   c9_defined_results_and_sentinels.2.2.1 1.225 2 0 0.127 (by norm_num),
   c9_defined_results_and_sentinels.2.2.2.1 70 sample_serration_params 1000 10
     (by norm_num) (by norm_num),
   c9_defined_results_and_sentinels.2.2.2.2.1 70 sample_tubercle_params {} (by norm_num),
   c9_defined_results_and_sentinels.2.2.2.2.2.1 70 sample_corrugation_params 200000 10
     (by norm_num) (by norm_num [sample_corrugation_params]),
   c9_defined_results_and_sentinels.2.2.2.2.2.2.1 70 sample_owl_params_dict {} (by norm_num)⟩

/-- C10: the synergy multiplier of the combined-reduction estimate is
computed from the raw length of the feature-name list: two unrecognised
names still produce the multiplier 1.18 (while contributing no reduction),
a duplicated recognised name has its reduction counted once per occurrence,
and in general the recorded multiplier is 1 + 0.18*(length - 1) for any list
longer than one. -/
theorem c10_raw_length_multiplier :
    (∀ (b : ℝ) (fp : FeatureKeyedParams) (oc : Conditions), b ≠ 0 →
      ∃ r, estimate_combined_noise_reduction b ["alpha", "beta"] fp oc = some r
        ∧ r.interaction_factor = 1.0 + 0.18 * ((2 : ℝ) - 1)
        ∧ r.total_reduction_db = 0
        ∧ r.individual_reductions = []
        ∧ r.final_noise_db = b)
    ∧ (∀ (b : ℝ) (fp : FeatureKeyedParams) (oc : Conditions) (p : SerrationParams)
        (s : OwlReductionResult) (r : CompositionResult),
      fp.owl_serrations = some p →
      owl_estimate_noise_reduction b p (oc.frequency_hz.getD 1000)
        (oc.velocity.getD 10.0) = some s →
      estimate_combined_noise_reduction b ["owl_serrations", "owl_serrations"] fp oc = some r →
      r.interaction_factor = 1.0 + 0.18 * ((2 : ℝ) - 1)
      ∧ r.total_reduction_db =
          (1.0 + 0.18 * ((2 : ℝ) - 1)) * (s.noise_reduction_db + s.noise_reduction_db))
    ∧ (∀ (b : ℝ) (feats : List String) (fp : FeatureKeyedParams) (oc : Conditions)
        (r : CompositionResult),
      estimate_combined_noise_reduction b feats fp oc = some r →
      r.interaction_factor =
        (if 1 < feats.length then 1.0 + 0.18 * ((feats.length : ℝ) - 1) else 1.0)) := by
  refine ⟨?_, ?_, ?_⟩
  · intro b fp oc hb
    have hloop : reduce_loop fp oc ["alpha", "beta"] ⟨0.0, b, []⟩ = some ⟨0.0, b, []⟩ := by
      simp [reduce_loop, reduce_step]
    obtain ⟨r, hr⟩ :
        ∃ r, estimate_combined_noise_reduction b ["alpha", "beta"] fp oc = some r := by
      unfold estimate_combined_noise_reduction
      rw [hloop, Option.some_bind, if_neg hb]
      exact ⟨_, rfl⟩
    obtain ⟨hfac, hfin, st, hst, htot, hind, _⟩ :=
      estimate_combined_fields b ["alpha", "beta"] fp oc r hr
    rw [hloop] at hst
    obtain rfl : _ = st := Option.some.inj hst
    have htot0 : r.total_reduction_db = 0 := by
      rw [htot, if_pos (by norm_num)]
      norm_num
    refine ⟨r, hr, ?_, htot0, ?_, ?_⟩
    · rw [hfac, if_pos (by norm_num)]
      norm_num
    · rw [hind]
    · rw [hfin, htot0]
      ring
  · intro b fp oc p s r hp hs h
    obtain ⟨hfac, _, st, hloop, htot, _, hb⟩ :=
      estimate_combined_fields b ["owl_serrations", "owl_serrations"] fp oc r h
    simp only [reduce_loop, reduce_step, hp, if_pos rfl, hs, Option.map_some',
      Option.some_bind, Option.bind_some] at hloop
    obtain ⟨s2, hs2, hmap⟩ :=
      (by simpa using hloop :
        ∃ s2, owl_estimate_noise_reduction s.reduced_noise_db p
            (oc.frequency_hz.getD 1000) (oc.velocity.getD 10.0) = some s2
          ∧ (⟨0.0 + s.noise_reduction_db + s2.noise_reduction_db, s2.reduced_noise_db,
              dict_insert (dict_insert [] "owl_serrations" s.noise_reduction_db)
                "owl_serrations" s2.noise_reduction_db⟩ : LoopState) = st)
    have hind := owl_reduction_baseline_indep b s.reduced_noise_db p
      (oc.frequency_hz.getD 1000) (oc.velocity.getD 10.0) s s2 hs hs2
    constructor
    · rw [hfac]
      norm_num
    · rw [htot]
      have hst : st.total_reduction = 0.0 + s.noise_reduction_db + s2.noise_reduction_db := by
        rw [← hmap]
      rw [if_pos (by norm_num), hst, hind]
      norm_num
      ring
  · intro b feats fp oc r h
    exact (estimate_combined_fields b feats fp oc r h).1

/-- C10, witness: the theorem applied at baseline 70 with the unrecognised
pair and with the duplicated serration feature (reduction 10 dB each
occurrence, multiplier 1.18). -/
theorem c10_witness :
    (∃ r, estimate_combined_noise_reduction 70 ["alpha", "beta"]
        sample_owl_params_dict {} = some r
      ∧ r.interaction_factor = 1.0 + 0.18 * ((2 : ℝ) - 1)
      ∧ r.total_reduction_db = 0
      ∧ r.individual_reductions = []
      ∧ r.final_noise_db = 70)
    ∧ (∃ s r, owl_estimate_noise_reduction 70 sample_serration_params
        (({} : Conditions).frequency_hz.getD 1000) (({} : Conditions).velocity.getD 10.0)
          = some s
      ∧ estimate_combined_noise_reduction 70 ["owl_serrations", "owl_serrations"]
          sample_owl_params_dict {} = some r
      ∧ r.interaction_factor = 1.0 + 0.18 * ((2 : ℝ) - 1)
      ∧ r.total_reduction_db =
          (1.0 + 0.18 * ((2 : ℝ) - 1)) * (s.noise_reduction_db + s.noise_reduction_db)) := by
  constructor
  · exact c10_raw_length_multiplier.1 70 sample_owl_params_dict {} (by norm_num)
  · have hsIs : (owl_estimate_noise_reduction 70 sample_serration_params
        (({} : Conditions).frequency_hz.getD 1000)
        (({} : Conditions).velocity.getD 10.0)).isSome := by
      simp only [owl_estimate_noise_reduction, sample_serration_params]
      norm_num
    obtain ⟨s, hsO⟩ := Option.isSome_iff_exists.mp hsIs
    have hr : (estimate_combined_noise_reduction 70 ["owl_serrations", "owl_serrations"]
        sample_owl_params_dict {}).isSome := by
      simp only [estimate_combined_noise_reduction, reduce_loop, reduce_step,
        sample_owl_params_dict, owl_estimate_noise_reduction, sample_serration_params]
      norm_num
    obtain ⟨r, hr⟩ := Option.isSome_iff_exists.mp hr
    exact ⟨s, r, hsO, hr,
      c10_raw_length_multiplier.2.1 70 sample_owl_params_dict {} sample_serration_params
        s r rfl hsO hr⟩

/-- C7: applying any of the three bio-feature apply operations to a geometry
record held in the reference store returns a record at a fresh reference and
leaves the record at the caller's reference unchanged (field-by-field, since
store_read returns the whole record). -/
theorem c7_apply_no_mutation :
    (∀ (s : List Geometry) (r : ℕ) (cfg : Option SerrationParams)
        (s2 : List Geometry) (m : ℕ), r < s.length →
      owl_apply_store s r cfg = some (s2, m) →
      store_read s2 r = store_read s r ∧ m ≠ r)
    ∧ (∀ (s : List Geometry) (r : ℕ) (cfg : Option TubercleParams)
        (s2 : List Geometry) (m : ℕ), r < s.length →
      tubercle_apply_store s r cfg = some (s2, m) →
      store_read s2 r = store_read s r ∧ m ≠ r)
    ∧ (∀ (s : List Geometry) (r : ℕ) (cfg : Option CorrugationParams)
        (s2 : List Geometry) (m : ℕ), r < s.length →
      corrugation_apply_store s r cfg = some (s2, m) →
      store_read s2 r = store_read s r ∧ m ≠ r) := by
  refine ⟨?_, ?_, ?_⟩
  · intro s r cfg s2 m hr h
    unfold owl_apply_store at h
    exact store_apply_frame hr h
  · intro s r cfg s2 m hr h
    unfold tubercle_apply_store at h
    exact store_apply_frame hr h
  · intro s r cfg s2 m hr h
    unfold corrugation_apply_store at h
    exact store_apply_frame hr h

/-- C7, witness: the serration apply on a one-record store succeeds with the
default configuration and leaves the record at reference 0 unchanged. -/
theorem c7_witness :
    ∃ (s2 : List Geometry) (m : ℕ),
      owl_apply_store [({} : Geometry)] 0 none = some (s2, m)
      ∧ store_read s2 0 = store_read [({} : Geometry)] 0 ∧ m ≠ 0 := by
  have hsome : (owl_apply_store [({} : Geometry)] 0 none).isSome := by
    simp only [owl_apply_store, owl_apply_to_blade_design, calculate_serration_geometry,
      store_read]
    norm_num
  obtain ⟨⟨s2, m⟩, h⟩ := Option.isSome_iff_exists.mp hsome
  exact ⟨s2, m, h, c7_apply_no_mutation.1 [({} : Geometry)] 0 none s2 m (by norm_num) h⟩

/-- C8: compose applies the recognised features in the fixed declaration
order regardless of input-list order — any two request lists agreeing on
membership of the three recognised names produce identical geometry records —
and the applied-feature list recorded on the result is the fixed-order filter
of the recognised names (so unrecognised names are skipped). -/
theorem c8_compose_fixed_order :
    (∀ (g : Geometry) (l₁ l₂ : List String) (cfgs : Option FeatureKeyedParams),
      ("owl_serrations" ∈ l₁ ↔ "owl_serrations" ∈ l₂) →
      ("humpback_tubercles" ∈ l₁ ↔ "humpback_tubercles" ∈ l₂) →
      ("dragonfly_corrugations" ∈ l₁ ↔ "dragonfly_corrugations" ∈ l₂) →
      create_design g l₁ cfgs = create_design g l₂ cfgs)
    ∧ (∀ (g : Geometry) (l : List String) (cfgs : Option FeatureKeyedParams) (g2 : Geometry),
      create_design g l cfgs = some g2 →
      g2.bio_inspired_features =
        some (["owl_serrations", "humpback_tubercles", "dragonfly_corrugations"].filter
          fun f => decide (f ∈ l))) := by
  constructor
  · intro g l₁ l₂ cfgs h1 h2 h3
    simp only [create_design, h1, h2, h3]
  · exact create_design_features

/-- C8, witness: two permuted (and duplicated) request lists over the same
recognised set compose identically, and a successful compose records the
fixed-order applied list. -/
theorem c8_witness :
    create_design ({} : Geometry) ["humpback_tubercles", "owl_serrations"] none =
      create_design ({} : Geometry) ["owl_serrations", "humpback_tubercles", "owl_serrations"] none
    ∧ ∃ g2, create_design ({} : Geometry) ["owl_serrations"] none = some g2 ∧
        g2.bio_inspired_features =
          some (["owl_serrations", "humpback_tubercles", "dragonfly_corrugations"].filter
            fun f => decide (f ∈ (["owl_serrations"] : List String))) := by
  constructor
  · exact c8_compose_fixed_order.1 ({} : Geometry) _ _ none (by decide) (by decide) (by decide)
  · have m1 : ("owl_serrations" ∈ (["owl_serrations"] : List String)) := by decide
    have m2 : ¬("humpback_tubercles" ∈ (["owl_serrations"] : List String)) := by decide
    have m3 : ¬("dragonfly_corrugations" ∈ (["owl_serrations"] : List String)) := by decide
    have hsome : (create_design ({} : Geometry) ["owl_serrations"] none).isSome := by
      simp only [create_design, m1, m2, m3, if_true, if_false, ite_true, ite_false,
        Option.getD_none, owl_apply_to_blade_design, calculate_serration_geometry]
      norm_num
    obtain ⟨g2, hg2⟩ := Option.isSome_iff_exists.mp hsome
    exact ⟨g2, hg2, c8_compose_fixed_order.2 ({} : Geometry) ["owl_serrations"] none g2 hg2⟩

/-- C6: for every valid positive input, the blade-element efficiency and the
figure-of-merit value lie in the closed unit interval; in particular
efficiency never exceeds 1. -/
theorem c6_efficiency_and_fom_bounds :
    (∀ (air_density rpm : ℝ) (bp : BladeParams) (num_blades num_elements : ℕ),
      0 < air_density → 0 < rpm → 0 < bp.radius → 0 < bp.chord_root → 0 < bp.chord_tip →
      0 < bp.pitch_angle → 0 < bp.cl_slope → 1 ≤ num_blades → 2 ≤ num_elements →
      0 ≤ (calculate_thrust_blade_element air_density rpm bp num_blades num_elements).efficiency
      ∧ (calculate_thrust_blade_element air_density rpm bp num_blades num_elements).efficiency ≤ 1)
    ∧ (∀ air_density thrust power radius : ℝ,
      0 < air_density → 0 < thrust → 0 < power → 0 < radius →
      0 ≤ calculate_figure_of_merit air_density thrust power radius
      ∧ calculate_figure_of_merit air_density thrust power radius ≤ 1) :=
  ⟨fun ρ rpm bp B n hρ _ hR hroot htip hpitch hslope _ hn =>
    blade_element_efficiency_mem ρ rpm bp B n hρ hR hroot htip hpitch hslope hn,
   fun ρ T P R _ hT hP _ => figure_of_merit_mem ρ T P R hT hP⟩

/-- C6, witness: the theorem applied to the baseline two-blade propeller at
5000 rpm and to a figure-of-merit computation with thrust 2 N, power 30 W. -/
theorem c6_witness :
    (0 ≤ (calculate_thrust_blade_element 1.225 5000
        { radius := 0.127, chord_root := 0.03, chord_tip := 0.015,
          pitch_angle := 10, cl_slope := 6.28 } 2 20).efficiency
    ∧ (calculate_thrust_blade_element 1.225 5000
        { radius := 0.127, chord_root := 0.03, chord_tip := 0.015,
          pitch_angle := 10, cl_slope := 6.28 } 2 20).efficiency ≤ 1)
    ∧ (0 ≤ calculate_figure_of_merit 1.225 2 30 0.127
      ∧ calculate_figure_of_merit 1.225 2 30 0.127 ≤ 1) :=
  ⟨c6_efficiency_and_fom_bounds.1 1.225 5000
    { radius := 0.127, chord_root := 0.03, chord_tip := 0.015,
      pitch_angle := 10, cl_slope := 6.28 } 2 20
    (by norm_num) (by norm_num) (by norm_num) (by norm_num) (by norm_num)
    (by norm_num) (by norm_num) (by norm_num) (by norm_num),
   c6_efficiency_and_fom_bounds.2 1.225 2 30 0.127
    (by norm_num) (by norm_num) (by norm_num) (by norm_num)⟩

/-- C5: the NTR operation returns the infinity sentinel exactly for
non-positive thrust and the plain quotient otherwise, with ntr(80, 5) = 16
exactly; and an evaluate call with a supplied baseline NTR reports a
reduction percentage equal to (b - ntr)/b*100 (0 when b is non-positive) and
a meets-target flag that holds exactly when that reduction reaches the fixed
literal threshold 15. -/
theorem c5_ntr_sentinel_and_target :
    (∀ noise_db thrust ref : ℝ, thrust ≤ 0 →
        calculate_noise_to_thrust_ratio noise_db thrust ref = ⊤)
    ∧ (∀ noise_db thrust ref : ℝ, 0 < thrust →
        calculate_noise_to_thrust_ratio noise_db thrust ref =
          ((noise_db / (thrust / ref) : ℝ) : EReal))
    ∧ calculate_noise_to_thrust_ratio 80 5 1 = ((16 : ℝ) : EReal)
    ∧ (∀ (noise : NoiseResults) (thrust : ThrustResults) (b : ℝ), 0 < thrust.thrust_N →
        ∃ red : EReal,
          (evaluate_design_performance noise thrust (some b)).noise_reduction_percentage
            = some red
          ∧ red = (if b ≤ 0 then (0 : EReal)
              else (((b - noise.total_spl_db / (thrust.thrust_N / 1.0)) / b * 100 : ℝ) : EReal))
          ∧ (evaluate_design_performance noise thrust (some b)).meets_15_percent_target
            = some ((15 : EReal) ≤ red)) := by
  refine ⟨fun noise_db thrust ref ht => if_pos ht,
    fun noise_db thrust ref ht => if_neg (not_le.mpr ht), ?_, ?_⟩
  · rw [calculate_noise_to_thrust_ratio, if_neg (by norm_num)]
    congr 1
    norm_num
  · intro noise thrust b ht
    refine ⟨calculate_noise_reduction_percentage b
      (calculate_noise_to_thrust_ratio noise.total_spl_db thrust.thrust_N 1.0), rfl, ?_, rfl⟩
    rw [show calculate_noise_to_thrust_ratio noise.total_spl_db thrust.thrust_N 1.0
        = ((noise.total_spl_db / (thrust.thrust_N / 1.0) : ℝ) : EReal) from
      if_neg (not_le.mpr ht)]
    exact reduction_pct_coe b _

/-- C5, witness: the theorem applied at thrust -1 (sentinel case), at the
exact-value case ntr(80, 5), and at a concrete evaluation with baseline 20. -/
theorem c5_witness :
    calculate_noise_to_thrust_ratio 80 (-1) 1 = ⊤
    ∧ calculate_noise_to_thrust_ratio 80 5 1 = ((16 : ℝ) : EReal)
    ∧ (∃ red : EReal,
        (evaluate_design_performance
          { total_spl_db := 80, broadband_spl_db := 70, tonal_spl_db := 60,
            vortex_spl_db := 50, vortex_frequency_hz := 100, harmonics := [] }
          { thrust_N := 5, torque_Nm := 1, power_W := 10, efficiency := 0.5 }
          (some 20)).noise_reduction_percentage = some red
        ∧ red = (if (20 : ℝ) ≤ 0 then (0 : EReal)
            else ((((20 : ℝ) - (80 : ℝ) / ((5 : ℝ) / 1.0)) / 20 * 100 : ℝ) : EReal))
        ∧ (evaluate_design_performance
            { total_spl_db := 80, broadband_spl_db := 70, tonal_spl_db := 60,
              vortex_spl_db := 50, vortex_frequency_hz := 100, harmonics := [] }
            { thrust_N := 5, torque_Nm := 1, power_W := 10, efficiency := 0.5 }
            (some 20)).meets_15_percent_target = some ((15 : EReal) ≤ red)) :=
  ⟨c5_ntr_sentinel_and_target.1 80 (-1) 1 (by norm_num),
   c5_ntr_sentinel_and_target.2.2.1,
   c5_ntr_sentinel_and_target.2.2.2
     { total_spl_db := 80, broadband_spl_db := 70, tonal_spl_db := 60,
       vortex_spl_db := 50, vortex_frequency_hz := 100, harmonics := [] }
     { thrust_N := 5, torque_Nm := 1, power_W := 10, efficiency := 0.5 }
     20 (by norm_num)⟩

/-- C1, witness: the amended theorem applied at components (10, 20, 30) and
at the one-entry spectrum with the label broadband. -/
theorem c1_witness :
    combine_spl_components 10 20 30 < 10 + 20 + 30 ∧
    calculate_weighted_noise_metric [("broadband", (30 : ℝ))] none =
      20 * Real.logb 10 (Real.sqrt (([(("broadband" : String), (30 : ℝ))].map fun kv =>
        if str_has_substr kv.1 "frequency_hz" then (0 : ℝ)
        else (10 : ℝ) ^ (kv.2 / 10)).sum)) :=
  ⟨c1_total_noise_energy_summation.2.2.2.1 10 20 30 (by norm_num) (by norm_num) (by norm_num),
   c1_total_noise_energy_summation.2.2.2.2 [("broadband", (30 : ℝ))]
     ⟨("broadband", (30 : ℝ)), List.mem_singleton.mpr rfl, by decide⟩⟩

end

